import Mathlib

/-!
# mergerfs: mount-option parsing (`src/option_parser.cpp`) and `readlink`
(`src/readlink.cpp`)

A shallow embedding of the option parser and of the `readlink` call.
Functions that write through a pointer are modelled as functions returning the
`int` result together with the new contents of the object written.  Code of
the repository that is not part of the examined sources (`str::split`, the
`num::` converters, the `Config` policy setters, `Branches::set`, the errno
constants) is collected in `Env`; the collaborators of
`mergerfs::options::parse` are in `HostEnv` and those of `readlink` in
`FsEnv`.  The general theorems hold for arbitrary environments; evaluations on
concrete inputs use `sample_env`, `sample_host` and `sample_fs`.
-/

namespace mergerfs

/-- Values of `Config::StatFS::Enum`. -/
inductive StatFS where
  | BASE
  | FULL
deriving DecidableEq, Repr

/-- Values of `Config::StatFSIgnore::Enum`. -/
inductive StatFSIgnore where
  | NONE
  | RO
  | NC
deriving DecidableEq, Repr

/-- A C `double`, kept as the 64-bit pattern stored in the object; the parser
only stores such values and never computes with them. -/
structure Double where
  bits : Nat
deriving DecidableEq, Repr

/-- Modelled from the spec: the `Branch` type is declared in a header that is
not part of the examined sources.  The spec gives a branch a directory path and
a mode among read-write, read-only and no-create. -/
inductive BranchMode where
  | RW
  | RO
  | NC
deriving DecidableEq, Repr

/-- Modelled from the spec: one backing directory plus its mode. -/
structure Branch where
  path : String
  mode : BranchMode
deriving DecidableEq, Repr

/-- Modelled from the spec: `Branches` is an ordered sequence of `Branch`. -/
abbrev Branches := List Branch

/-- Modelled from the spec: the function and category policy bindings of
`Config`, as mappings from a name to a policy identifier. -/
abbrev PolicyMap := List (String × String)

/-- The fields of `Config` that `option_parser.cpp` reads or writes.  The
declaration itself (`config.hpp`) is not part of the examined sources; the
field names and types are those used at the assignment sites. -/
structure Config where
  destmount : String
  branches : Branches
  minfreespace : Nat
  moveonenospc : Bool
  direct_io : Bool
  kernel_cache : Bool
  auto_cache : Bool
  dropcacheonclose : Bool
  symlinkify : Bool
  symlinkify_timeout : Int
  nullrw : Bool
  ignorepponrename : Bool
  security_capability : Bool
  link_cow : Bool
  xattr : Int
  statfs : StatFS
  statfs_ignore : StatFSIgnore
  hard_remove : Bool
  entry_timeout : Double
  negative_timeout : Double
  attr_timeout : Double
  ac_attr_timeout : Double
  func_policies : PolicyMap
  category_policies : PolicyMap
deriving DecidableEq, Repr

/-- The collaborators of `option_parser.cpp` whose code is not part of the
examined sources.  A converter or setter receives the current contents of the
object it may write and returns its `int` result with the new contents. -/
structure Env where
  /-- The helper `str::split(result, str, delimiter)`. -/
  split : String → Char → List String
  /-- The converter `num::to_uint64_t(value, out)`. -/
  to_uint64_t : String → Nat → Int × Nat
  /-- The converter `num::to_double(value, out)`. -/
  to_double : String → Double → Int × Double
  /-- The converter `num::to_time_t(value, out)`. -/
  to_time_t : String → Int → Int × Int
  /-- The method `Config::set_func_policy(name, policy)`. -/
  set_func_policy : Config → String → String → Int × Config
  /-- The method `Config::set_category_policy(name, policy)`. -/
  set_category_policy : Config → String → String → Int × Config
  /-- The method `Branches::set(str)`, which parses a colon-delimited,
  glob-expanded list; it receives the current branch list. -/
  branches_set : String → Branches → Branches
  /-- The errno constant `ENOSYS`. -/
  ENOSYS : Int
  /-- The errno constant `ENOATTR`. -/
  ENOATTR : Int

/-! ## Value converters -/

/-- `parse_and_process(const std::string*, uint64_t*)`. -/
def parse_and_process_uint64 (env : Env) (value_ : String) (uint64_ : Nat) : Int × Nat :=
  let r := env.to_uint64_t value_ uint64_
  if r.1 = -1 then (1, r.2) else (0, r.2)

/-- `parse_and_process(const std::string*, double*)`. -/
def parse_and_process_double (env : Env) (value_ : String) (d_ : Double) : Int × Double :=
  let r := env.to_double value_ d_
  if r.1 = -1 then (1, r.2) else (0, r.2)

/-- `parse_and_process(const std::string*, time_t*)`. -/
def parse_and_process_time (env : Env) (value_ : String) (time_ : Int) : Int × Int :=
  let r := env.to_time_t value_ time_
  if r.1 = -1 then (1, r.2) else (0, r.2)

/-- `parse_and_process(const std::string*, bool*)`. -/
def parse_and_process_bool (value_ : String) (boolean_ : Bool) : Int × Bool :=
  if value_ = "false" then (0, false)
  else if value_ = "true" then (0, true)
  else (1, boolean_)

/-- `parse_and_process_errno`. -/
def parse_and_process_errno (env : Env) (value_ : String) (errno_ : Int) : Int × Int :=
  if value_ = "passthrough" then (0, 0)
  else if value_ = "nosys" then (0, env.ENOSYS)
  else if value_ = "noattr" then (0, env.ENOATTR)
  else (1, errno_)

/-- `parse_and_process_statfs`. -/
def parse_and_process_statfs (value_ : String) (enum_ : StatFS) : Int × StatFS :=
  if value_ = "base" then (0, StatFS.BASE)
  else if value_ = "full" then (0, StatFS.FULL)
  else (1, enum_)

/-- `parse_and_process_statfsignore`. -/
def parse_and_process_statfsignore (value_ : String) (enum_ : StatFSIgnore) :
    Int × StatFSIgnore :=
  if value_ = "none" then (0, StatFSIgnore.NONE)
  else if value_ = "ro" then (0, StatFSIgnore.RO)
  else if value_ = "nc" then (0, StatFSIgnore.NC)
  else (1, enum_)

/-! ## Option dispatch -/

/-- `parse_and_process_arg`: a bare flag token. -/
def parse_and_process_arg (config_ : Config) (arg_ : String) : Int × Config :=
  if arg_ = "direct_io" then (0, { config_ with direct_io := true })
  else if arg_ = "hard_remove" then (0, { config_ with hard_remove := true })
  else if arg_ = "kernel_cache" then (0, { config_ with kernel_cache := true })
  else if arg_ = "auto_cache" then (0, { config_ with auto_cache := true })
  else (1, config_)

/-- The closing `if(rv == -1) rv = 1;` of `parse_and_process_kv_arg`. -/
def map_rv (rv : Int) : Int :=
  if rv = -1 then 1 else rv

/-- The `else` branch of `parse_and_process_kv_arg`: the chain of comparisons
of the whole key against the scalar option names.  The result is the value of
`rv` before the closing mapping, with the updated `Config`. -/
def kv_scalar (env : Env) (config_ : Config) (key_ value_ : String) : Int × Config :=
  if key_ = "minfreespace" then
    let r := parse_and_process_uint64 env value_ config_.minfreespace
    (r.1, { config_ with minfreespace := r.2 })
  else if key_ = "moveonenospc" then
    let r := parse_and_process_bool value_ config_.moveonenospc
    (r.1, { config_ with moveonenospc := r.2 })
  else if key_ = "dropcacheonclose" then
    let r := parse_and_process_bool value_ config_.dropcacheonclose
    (r.1, { config_ with dropcacheonclose := r.2 })
  else if key_ = "symlinkify" then
    let r := parse_and_process_bool value_ config_.symlinkify
    (r.1, { config_ with symlinkify := r.2 })
  else if key_ = "symlinkify_timeout" then
    let r := parse_and_process_time env value_ config_.symlinkify_timeout
    (r.1, { config_ with symlinkify_timeout := r.2 })
  else if key_ = "nullrw" then
    let r := parse_and_process_bool value_ config_.nullrw
    (r.1, { config_ with nullrw := r.2 })
  else if key_ = "ignorepponrename" then
    let r := parse_and_process_bool value_ config_.ignorepponrename
    (r.1, { config_ with ignorepponrename := r.2 })
  else if key_ = "security_capability" then
    let r := parse_and_process_bool value_ config_.security_capability
    (r.1, { config_ with security_capability := r.2 })
  else if key_ = "link_cow" then
    let r := parse_and_process_bool value_ config_.link_cow
    (r.1, { config_ with link_cow := r.2 })
  else if key_ = "xattr" then
    let r := parse_and_process_errno env value_ config_.xattr
    (r.1, { config_ with xattr := r.2 })
  else if key_ = "statfs" then
    let r := parse_and_process_statfs value_ config_.statfs
    (r.1, { config_ with statfs := r.2 })
  else if key_ = "statfs_ignore" then
    let r := parse_and_process_statfsignore value_ config_.statfs_ignore
    (r.1, { config_ with statfs_ignore := r.2 })
  else if key_ = "hard_remove" then
    let r := parse_and_process_bool value_ config_.hard_remove
    (r.1, { config_ with hard_remove := r.2 })
  else if key_ = "direct_io" then
    let r := parse_and_process_bool value_ config_.direct_io
    (r.1, { config_ with direct_io := r.2 })
  else if key_ = "kernel_cache" then
    let r := parse_and_process_bool value_ config_.kernel_cache
    (r.1, { config_ with kernel_cache := r.2 })
  else if key_ = "auto_cache" then
    let r := parse_and_process_bool value_ config_.auto_cache
    (r.1, { config_ with auto_cache := r.2 })
  else if key_ = "entry_timeout" then
    let r := parse_and_process_double env value_ config_.entry_timeout
    (r.1, { config_ with entry_timeout := r.2 })
  else if key_ = "negative_timeout" then
    let r := parse_and_process_double env value_ config_.negative_timeout
    (r.1, { config_ with negative_timeout := r.2 })
  else if key_ = "attr_timeout" then
    let r := parse_and_process_double env value_ config_.attr_timeout
    (r.1, { config_ with attr_timeout := r.2 })
  else if key_ = "ac_attr_timeout" then
    let r := parse_and_process_double env value_ config_.ac_attr_timeout
    (r.1, { config_ with ac_attr_timeout := r.2 })
  else (-1, config_)

/-- The `keypart.size() == 2` branch of `parse_and_process_kv_arg`. -/
def kv_policy (env : Env) (config_ : Config) (keypart0 keypart1 value_ : String) :
    Int × Config :=
  if keypart0 = "func" then env.set_func_policy config_ keypart1 value_
  else if keypart0 = "category" then env.set_category_policy config_ keypart1 value_
  else (-1, config_)

/-- `parse_and_process_kv_arg`: a `key=value` token. -/
def parse_and_process_kv_arg (env : Env) (config_ : Config) (key_ value_ : String) :
    Int × Config :=
  let r :=
    match env.split key_ '.' with
    | [keypart0, keypart1] => kv_policy env config_ keypart0 keypart1 value_
    | _ => kv_scalar env config_ key_ value_
  (map_rv r.1, r.2)

/-- `process_opt`: dispatch on the number of `=`-separated parts. -/
def process_opt (env : Env) (config_ : Config) (arg_ : String) : Int × Config :=
  match env.split arg_ '=' with
  | [a] => parse_and_process_arg config_ a
  | [k, v] => parse_and_process_kv_arg env config_ k v
  | _ => (1, config_)

/-- `process_branches`. -/
def process_branches (env : Env) (arg : String) (config : Config) : Int × Config :=
  (0, { config with branches := env.branches_set arg config.branches })

/-- `process_destmounts`. -/
def process_destmounts (arg : String) (config : Config) : Int × Config :=
  (1, { config with destmount := arg })

/-! ## The callback handed to the host option parser -/

/-- `FUSE_OPT_KEY_OPT` of the host library's `fuse_opt.h`. -/
def FUSE_OPT_KEY_OPT : Int := -1

/-- `FUSE_OPT_KEY_NONOPT` of the host library's `fuse_opt.h`. -/
def FUSE_OPT_KEY_NONOPT : Int := -2

/-- First member of the anonymous `enum` of `option_parser.cpp`. -/
def MERGERFS_OPT_HELP : Int := 0

/-- Second member of the anonymous `enum` of `option_parser.cpp`. -/
def MERGERFS_OPT_VERSION : Int := 1

/-- What the host library's `fuse_opt_proc_t` contract makes of the callback's
return value: `-1` is an error, `0` discards the argument, `1` keeps it. -/
def FUSE_PROC_ERROR : Int := -1

/-- The callback result that discards the argument. -/
def FUSE_PROC_DISCARD : Int := 0

/-- The callback result that keeps the argument for the host layer. -/
def FUSE_PROC_KEEP : Int := 1

/-- The state `option_processor` returns: its `int` result, the `Config`
behind `data` and the argument vector `outargs`. -/
structure ProcResult where
  rv : Int
  config : Config
  outargs : List String
deriving DecidableEq, Repr

/-- `option_processor`.  Text written to the standard output and the
redirection of the standard error are not part of the state. -/
def option_processor (env : Env) (config : Config) (arg : String) (key : Int)
    (outargs : List String) : ProcResult :=
  if key = FUSE_OPT_KEY_OPT then
    let r := process_opt env config arg
    ⟨r.1, r.2, outargs⟩
  else if key = FUSE_OPT_KEY_NONOPT then
    let r := if config.branches.isEmpty then process_branches env arg config
             else process_destmounts arg config
    ⟨r.1, r.2, outargs⟩
  else if key = MERGERFS_OPT_HELP then ⟨0, config, outargs ++ ["-ho"]⟩
  else if key = MERGERFS_OPT_VERSION then ⟨0, config, outargs ++ ["--version"]⟩
  else ⟨0, config, outargs⟩

/-! ## A concrete environment

Used to evaluate the parser on concrete tokens. -/

/-- Splitting in the manner of a `std::getline` loop: parts are separated by
the delimiter and an empty part at the very end is not produced. -/
def getline_split_aux (d : Char) : List Char → List Char → List String
  | [], cur => if cur = [] then [] else [String.mk cur.reverse]
  | c :: cs, cur =>
    if c = d then String.mk cur.reverse :: getline_split_aux d cs []
    else getline_split_aux d cs (c :: cur)

/-- The split of the concrete environment. -/
def getline_split (s : String) (d : Char) : List String :=
  getline_split_aux d s.data []

/-- Decimal digits only, for the concrete environment's integer converters. -/
def digits_value (s : String) : Option Nat :=
  if s.data ≠ [] ∧ s.data.all Char.isDigit then
    some (s.data.foldl (fun n c => 10 * n + (c.toNat - 48)) 0)
  else none

/-- A concrete environment: `getline` splitting, decimal converters that leave
the target alone on failure, setters that bind any non-empty name, and a
`Branches::set` that makes one read-write branch per colon-separated path. -/
def sample_env : Env where
  split := getline_split
  to_uint64_t := fun v old =>
    match digits_value v with
    | some n => (0, n % 2 ^ 64)
    | none => (-1, old)
  to_double := fun v old =>
    match digits_value v with
    | some n => (0, ⟨n⟩)
    | none => (-1, old)
  to_time_t := fun v old =>
    match digits_value v with
    | some n => (0, (n : Int))
    | none => (-1, old)
  set_func_policy := fun c n p =>
    if n = "" ∨ p = "" then (-1, c)
    else (0, { c with func_policies := (n, p) :: c.func_policies })
  set_category_policy := fun c n p =>
    if n = "" ∨ p = "" then (-1, c)
    else (0, { c with category_policies := (n, p) :: c.category_policies })
  branches_set := fun s _ => (getline_split s ':').map (fun p => ⟨p, BranchMode.RW⟩)
  ENOSYS := 38
  ENOATTR := 61

/-- A configuration with no branches and every option at a fixed value. -/
def sample_config : Config where
  destmount := ""
  branches := []
  minfreespace := 4294967296
  moveonenospc := false
  direct_io := false
  kernel_cache := false
  auto_cache := false
  dropcacheonclose := false
  symlinkify := false
  symlinkify_timeout := 3600
  nullrw := false
  ignorepponrename := false
  security_capability := true
  link_cow := false
  xattr := 0
  statfs := StatFS.BASE
  statfs_ignore := StatFSIgnore.NONE
  hard_remove := false
  entry_timeout := ⟨1⟩
  negative_timeout := ⟨1⟩
  attr_timeout := ⟨1⟩
  ac_attr_timeout := ⟨1⟩
  func_policies := []
  category_policies := []

/-! ## Names used to state the properties -/

/-- The option names that `parse_and_process_kv_arg` compares with the whole
key, in the order of the comparisons. -/
def scalar_keys : List String :=
  ["minfreespace", "moveonenospc", "dropcacheonclose", "symlinkify", "symlinkify_timeout",
   "nullrw", "ignorepponrename", "security_capability", "link_cow", "xattr", "statfs",
   "statfs_ignore", "hard_remove", "direct_io", "kernel_cache", "auto_cache",
   "entry_timeout", "negative_timeout", "attr_timeout", "ac_attr_timeout"]

/-- The tokens that `parse_and_process_arg` compares with the bare argument. -/
def flag_names : List String :=
  ["direct_io", "hard_remove", "kernel_cache", "auto_cache"]

/-- The calls the host option parser makes for a run of positional
arguments: `option_processor` with `FUSE_OPT_KEY_NONOPT` on each in order,
every call starting from the state the previous one left. -/
def feed_nonopts (env : Env) : ProcResult → List String → ProcResult
  | r, [] => r
  | r, a :: rest =>
    feed_nonopts env (option_processor env r.config a FUSE_OPT_KEY_NONOPT r.outargs) rest

/-- The option names whose value goes through a numeric converter. -/
def numeric_keys : List String :=
  ["minfreespace", "symlinkify_timeout", "entry_timeout", "negative_timeout",
   "attr_timeout", "ac_attr_timeout"]

/-- The option names whose value is one of a list of literals. -/
def enum_keys : List String :=
  ["xattr", "statfs", "statfs_ignore"]

/-! ## Derived mount options (`set_option` to `mergerfs::options::parse`) -/

/-- The host library's `fuse_opt_insert_arg(args, pos, arg)`: the argument is
put at index `pos` and the arguments from there on move up by one.  The
library asserts `pos <= argc`; `none` stands for the failed assertion. -/
def fuse_opt_insert_arg (args : List String) (pos : Nat) (arg : String) :
    Option (List String) :=
  if pos ≤ args.length then some (args.take pos ++ arg :: args.drop pos) else none

/-- The static function `set_option` of `option_parser.cpp` (the source name is
a reserved word here). -/
def set_option_arg (args : List String) (option_ : String) : Option (List String) :=
  fuse_opt_insert_arg args 1 ("-o" ++ option_)

/-- `set_kv_option`. -/
def set_kv_option (args : List String) (key value : String) : Option (List String) :=
  set_option_arg args (key.push '=' ++ value)

/-- Modelled from the spec: `Branches::to_paths` is not part of the examined
sources; it yields the directory paths of the branches in order. -/
def to_paths (branches_ : Branches) : List String :=
  branches_.map Branch.path

/-- The collaborators of `mergerfs::options::parse` whose code is not part of
the examined sources. -/
structure HostEnv where
  /-- The host library's `fuse_opt_parse(args, data, opts, proc)`: it receives
  the argument vector, the `Config` behind `data` and the callback, and returns
  its `int` result with the argument vector and the `Config` it leaves. -/
  fuse_opt_parse : List String → Config →
    (Config → String → Int → List String → ProcResult) → Int × List String × Config
  /-- The helper `str::remove_common_prefix_and_join(paths, sep)`. -/
  remove_common_prefix_and_join : List String → Char → String

/-- `set_fsname`. -/
def set_fsname (henv : HostEnv) (args : List String) (branches_ : Branches) :
    Option (List String) :=
  let branches := to_paths branches_
  if branches.length > 0 then
    set_kv_option args "fsname" (henv.remove_common_prefix_and_join branches ':')
  else some args

/-- `set_subtype`. -/
def set_subtype (args : List String) : Option (List String) :=
  set_kv_option args "subtype" "mergerfs"

/-- `mergerfs::options::parse`: the host parser runs with `option_processor`
as callback, its `int` result is not looked at, then the two derived options
are inserted. -/
def options_parse (env : Env) (henv : HostEnv) (args : List String) (config : Config) :
    Option (List String × Config) :=
  let r := henv.fuse_opt_parse args config (option_processor env)
  match set_fsname henv r.2.1 r.2.2.branches with
  | none => none
  | some a1 =>
    match set_subtype a1 with
    | none => none
    | some a2 => some (a2, r.2.2)

/-! ## `readlink` (`src/readlink.cpp`)

Memory is a list of bytes starting at the address `buf`; its first `size`
bytes are the caller's buffer and any further bytes are the memory behind it.
A result `none` stands for an access outside the memory modelled or outside a
vector, which the language leaves undefined. -/

/-- The bytes of `s.c_str()` before the terminator. -/
def c_str (s : String) : List Nat :=
  ((s.data.flatMap String.utf8EncodeChar).map UInt8.toNat).takeWhile (fun b => b ≠ 0)

/-- The assignment `buf[i] = b`. -/
def store (mem : List Nat) (i : Int) (b : Nat) : Option (List Nat) :=
  if 0 ≤ i ∧ i.toNat < mem.length then some (mem.set i.toNat b) else none

/-- The C library's `strncpy(dest, src, n)`: exactly `n` bytes are written,
the bytes of `src` first and NUL bytes after its end. -/
def strncpy (dest : List Nat) (src : List Nat) (n : Nat) : Option (List Nat) :=
  if n ≤ dest.length then
    some ((List.range n).map (fun i => src.getD i 0) ++ dest.drop n)
  else none

/-- Modelled from the spec: what the symlinkify predicate reads of a `struct
stat`: the last-modified time, the read-only-effective flag and whether the
file is a regular file. -/
structure Stat where
  mtime : Int
  read_only_effective : Bool
  is_regular_file : Bool
deriving DecidableEq, Repr

/-- The outcome of a call that reports through its `int` result, an output
argument and `errno`. -/
structure SysRet (α : Type) where
  rv : Int
  out : α
  errno : Int

/-- The collaborators of `readlink.cpp` whose code is not part of the examined
sources. -/
structure FsEnv where
  /-- The wrapper `fs::readlink(path, buf, size)`; `out` is the memory at `buf`
  after the call. -/
  fs_readlink : String → List Nat → Nat → SysRet (List Nat)
  /-- The wrapper `fs::stat(path, st)`. -/
  fs_stat : String → SysRet Stat
  /-- The predicate `symlinkify::can_be_symlink(st, timeout)`. -/
  can_be_symlink : Stat → Int → Bool
  /-- The helper `fs::path::make(basepath, fusepath)`. -/
  path_make : String → String → String

/-- The type `Policy::Func::Search`: from the branches, the path and the
free-space threshold to the `int` result, the candidate base paths and
`errno`. -/
abbrev SearchFunc := Branches → String → Nat → SysRet (List String)

/-- `local::readlink_core_standard`. -/
def readlink_core_standard (fs : FsEnv) (fullpath : String) (buf : List Nat) (size : Nat) :
    Option (Int × List Nat) :=
  let r := fs.fs_readlink fullpath buf size
  if r.rv = -1 then some (-r.errno, r.out)
  else
    match store r.out r.rv 0 with
    | none => none
    | some b => some (0, b)

/-- `local::readlink_core_symlinkify`. -/
def readlink_core_symlinkify (fs : FsEnv) (fullpath : String) (buf : List Nat) (size : Nat)
    (symlinkify_timeout : Int) : Option (Int × List Nat) :=
  let r := fs.fs_stat fullpath
  if r.rv = -1 then some (-r.errno, buf)
  else if !fs.can_be_symlink r.out symlinkify_timeout then
    readlink_core_standard fs fullpath buf size
  else
    match strncpy buf (c_str fullpath) size with
    | none => none
    | some b => some (0, b)

/-- `local::readlink_core`. -/
def readlink_core (fs : FsEnv) (basepath fusepath : String) (buf : List Nat) (size : Nat)
    (symlinkify : Bool) (symlinkify_timeout : Int) : Option (Int × List Nat) :=
  let fullpath := fs.path_make basepath fusepath
  if symlinkify then readlink_core_symlinkify fs fullpath buf size symlinkify_timeout
  else readlink_core_standard fs fullpath buf size

/-- `local::readlink`. -/
def readlink (fs : FsEnv) (searchFunc : SearchFunc) (branches_ : Branches)
    (minfreespace : Nat) (fusepath : String) (buf : List Nat) (size : Nat)
    (symlinkify : Bool) (symlinkify_timeout : Int) : Option (Int × List Nat) :=
  let r := searchFunc branches_ fusepath minfreespace
  if r.rv = -1 then some (-r.errno, buf)
  else
    match r.out with
    | [] => none
    | basepath0 :: _ =>
      readlink_core fs basepath0 fusepath buf size symlinkify symlinkify_timeout

/-! ## Concrete collaborators for `readlink` -/

/-- The errno value for "no such file or directory". -/
def ENOENT : Int := 2

/-- The errno value for "permission denied". -/
def EACCES : Int := 13

/-- Modelled from the spec: the symlinkify decision, true exactly for a
regular, read-only-effective file whose age exceeds the timeout. -/
def should_symlinkify (mtime now timeout : Int) (read_only_effective is_regular_file : Bool) :
    Bool :=
  is_regular_file && read_only_effective && decide (now - mtime > timeout)

/-- A file system with the symbolic link `/b/lnk` to `abcdef`, the old
read-only regular file `/b/x`, the writable regular file `/b/w`, and nothing
else; the clock stands at 10000. -/
def sample_fs : FsEnv where
  fs_readlink := fun p buf size =>
    if p = "/b/lnk" then
      ⟨min size 6, ([97, 98, 99, 100, 101, 102].take size) ++ buf.drop (min size 6), 0⟩
    else if p = "/b/x" ∨ p = "/b/w" then ⟨-1, buf, 22⟩
    else ⟨-1, buf, ENOENT⟩
  fs_stat := fun p =>
    if p = "/b/lnk" then ⟨0, ⟨100, true, false⟩, 0⟩
    else if p = "/b/x" then ⟨0, ⟨100, true, true⟩, 0⟩
    else if p = "/b/w" then ⟨0, ⟨100, false, true⟩, 0⟩
    else ⟨-1, ⟨0, false, false⟩, ENOENT⟩
  can_be_symlink := fun st timeout =>
    should_symlinkify st.mtime 10000 timeout st.read_only_effective st.is_regular_file
  path_make := fun base fusepath => base ++ fusepath

/-- A search policy that reports the base paths of all branches, and failure
with `ENOENT` when there is none. -/
def sample_search : SearchFunc := fun branches_ _ _ =>
  if branches_ = [] then ⟨-1, [], ENOENT⟩ else ⟨0, to_paths branches_, 0⟩

/-- A search function that reports success with no candidate. -/
def empty_success_search : SearchFunc := fun _ _ _ => ⟨0, [], 0⟩

/-- A search function that fails with `EACCES` and no candidate. -/
def denied_search : SearchFunc := fun _ _ _ => ⟨-1, [], EACCES⟩

/-- The host parser of the concrete environment: the first argument is kept,
every further argument is handed to the callback as a positional argument and
kept when the callback returns 1. -/
def sample_fuse_opt_parse_loop (proc : Config → String → Int → List String → ProcResult) :
    Config → List String → List String → List String × Config
  | c, out, [] => (out, c)
  | c, out, a :: rest =>
    let r := proc c a FUSE_OPT_KEY_NONOPT out
    sample_fuse_opt_parse_loop proc r.config
      (if r.rv = 1 then r.outargs ++ [a] else r.outargs) rest

/-- The longest common beginning of two character lists. -/
def common_start : List Char → List Char → List Char
  | a :: as, b :: bs => if a = b then a :: common_start as bs else []
  | _, _ => []

/-- A concrete host environment: the common beginning of all paths is dropped
from each and the remainders are joined with the separator. -/
def sample_host : HostEnv where
  fuse_opt_parse := fun args c proc =>
    match args with
    | [] => (0, [], c)
    | a0 :: rest =>
      let r := sample_fuse_opt_parse_loop proc c [a0] rest
      (0, r.1, r.2)
  remove_common_prefix_and_join := fun paths sep =>
    match paths with
    | [] => ""
    | p :: ps =>
      let n := (ps.foldl (fun acc q => common_start acc q.data) p.data).length
      String.intercalate (String.singleton sep)
        ((p :: ps).map (fun q => String.mk (q.data.drop n)))

/-- The `Config` `c` with the field that the option name `k` stands for taken
from `c2`; for any other `k` it is `c`. -/
def with_field_of (k : String) (c c2 : Config) : Config :=
  if k = "minfreespace" then { c with minfreespace := c2.minfreespace }
  else if k = "moveonenospc" then { c with moveonenospc := c2.moveonenospc }
  else if k = "dropcacheonclose" then { c with dropcacheonclose := c2.dropcacheonclose }
  else if k = "symlinkify" then { c with symlinkify := c2.symlinkify }
  else if k = "symlinkify_timeout" then { c with symlinkify_timeout := c2.symlinkify_timeout }
  else if k = "nullrw" then { c with nullrw := c2.nullrw }
  else if k = "ignorepponrename" then { c with ignorepponrename := c2.ignorepponrename }
  else if k = "security_capability" then
    { c with security_capability := c2.security_capability }
  else if k = "link_cow" then { c with link_cow := c2.link_cow }
  else if k = "xattr" then { c with xattr := c2.xattr }
  else if k = "statfs" then { c with statfs := c2.statfs }
  else if k = "statfs_ignore" then { c with statfs_ignore := c2.statfs_ignore }
  else if k = "hard_remove" then { c with hard_remove := c2.hard_remove }
  else if k = "direct_io" then { c with direct_io := c2.direct_io }
  else if k = "kernel_cache" then { c with kernel_cache := c2.kernel_cache }
  else if k = "auto_cache" then { c with auto_cache := c2.auto_cache }
  else if k = "entry_timeout" then { c with entry_timeout := c2.entry_timeout }
  else if k = "negative_timeout" then { c with negative_timeout := c2.negative_timeout }
  else if k = "attr_timeout" then { c with attr_timeout := c2.attr_timeout }
  else if k = "ac_attr_timeout" then { c with ac_attr_timeout := c2.ac_attr_timeout }
  else c

/-! ## Theorems -/

/-- C1: a boolean value is accepted exactly when it is the literal `true` or
`false`; then the target becomes that value, and for every other string the
result is the error result 1 and the target is unchanged. -/
theorem parse_and_process_bool_exact (v : String) (b : Bool) :
    ((parse_and_process_bool v b).1 = 0 ↔ (v = "true" ∨ v = "false")) ∧
    (v = "true" → parse_and_process_bool v b = (0, true)) ∧
    (v = "false" → parse_and_process_bool v b = (0, false)) ∧
    (¬ (v = "true" ∨ v = "false") →
      (parse_and_process_bool v b).1 ≠ 0 ∧ parse_and_process_bool v b = (1, b)) ∧
    (∀ w ∈ ["1", "yes", "True", "", "TRUE"], parse_and_process_bool w b = (1, b)) := by
  refine ⟨?_, ?_, ?_, ?_, ?_⟩
  · unfold parse_and_process_bool
    by_cases hf : v = "false"
    · simp [hf]
    · by_cases ht : v = "true"
      · simp [ht]
      · simp [hf, ht]
  · intro h
    subst h
    simp [parse_and_process_bool]
  · intro h
    subst h
    simp [parse_and_process_bool]
  · intro h
    have hf : v ≠ "false" := fun e => h (Or.inr e)
    have ht : v ≠ "true" := fun e => h (Or.inl e)
    simp [parse_and_process_bool, hf, ht]
  · intro w hw
    simp only [List.mem_cons, List.mem_singleton, List.not_mem_nil, or_false] at hw
    rcases hw with h | h | h | h | h <;> subst h <;> simp [parse_and_process_bool]

/-! ### Helper lemmas -/

theorem kv_scalar_unknown (env : Env) (c : Config) (key v : String)
    (hkey : key ∉ scalar_keys) : kv_scalar env c key v = (-1, c) := by
  simp only [scalar_keys, List.mem_cons, List.mem_singleton, List.not_mem_nil, or_false,
    not_or] at hkey
  obtain ⟨h1, h2, h3, h4, h5, h6, h7, h8, h9, h10, h11, h12, h13, h14, h15, h16, h17, h18,
    h19, h20⟩ := hkey
  simp [kv_scalar, h1, h2, h3, h4, h5, h6, h7, h8, h9, h10, h11, h12, h13, h14, h15, h16,
    h17, h18, h19, h20]

theorem kv_arg_two_parts (env : Env) (c : Config) (key v p0 p1 : String)
    (h : env.split key '.' = [p0, p1]) :
    parse_and_process_kv_arg env c key v =
      (map_rv (kv_policy env c p0 p1 v).1, (kv_policy env c p0 p1 v).2) := by
  simp [parse_and_process_kv_arg, h]

theorem kv_arg_not_two_parts (env : Env) (c : Config) (key v : String)
    (h : (env.split key '.').length ≠ 2) :
    parse_and_process_kv_arg env c key v =
      (map_rv (kv_scalar env c key v).1, (kv_scalar env c key v).2) := by
  unfold parse_and_process_kv_arg
  split
  · rename_i p0 p1 hs
    rw [hs] at h
    simp at h
  · rfl

theorem getline_split_aux_two (d : Char) (p0 p1 : String) :
    ∀ (l cur : List Char), getline_split_aux d l cur = [p0, p1] →
      ∃ rest, cur.reverse ++ l = p0.data ++ d :: rest := by
  intro l
  induction l with
  | nil =>
    intro cur h
    unfold getline_split_aux at h
    split at h <;> simp at h
  | cons c cs ih =>
    intro cur h
    unfold getline_split_aux at h
    split at h
    · rename_i hc
      simp only [List.cons.injEq] at h
      refine ⟨cs, ?_⟩
      rw [← h.1, hc]
    · obtain ⟨rest, hr⟩ := ih (c :: cur) h
      refine ⟨rest, ?_⟩
      rw [← hr]
      simp

theorem getline_split_two (s p0 p1 : String) (d : Char)
    (h : getline_split s d = [p0, p1]) : ∃ n, s = p0 ++ String.singleton d ++ n := by
  obtain ⟨rest, hr⟩ := getline_split_aux_two d p0 p1 s.data [] h
  refine ⟨String.mk rest, ?_⟩
  apply String.ext
  simp at hr
  simp [String.data_append, hr, String.singleton]

theorem sample_env_split_dot (key p0 p1 : String)
    (h : sample_env.split key '.' = [p0, p1]) : ∃ n, key = p0 ++ "." ++ n :=
  getline_split_two key p0 p1 '.' h

theorem not_prefixed (a b : Char) (s t n : String) (hab : a ≠ b)
    (hs : s.data.head? = some a) (ht : t.data.head? = some b) : s ≠ t ++ n := by
  intro h
  have h2 := congrArg (fun x => x.data.head?) h
  simp only [String.data_append] at h2
  rw [hs] at h2
  cases htd : t.data with
  | nil => rw [htd] at ht; simp at ht
  | cons x xs =>
    rw [htd] at ht h2
    simp at ht h2
    exact hab (h2.trans ht)

theorem parse_and_process_bool_iff (v : String) (b : Bool) :
    ((parse_and_process_bool v b).1 = 0 ↔ (v = "true" ∨ v = "false")) ∧
    (¬ (v = "true" ∨ v = "false") → parse_and_process_bool v b = (1, b)) := by
  unfold parse_and_process_bool
  by_cases hf : v = "false"
  · simp [hf]
  · by_cases ht : v = "true"
    · simp [ht]
    · simp [hf, ht]

/-! ### Unrecognised keys -/

/-- C2: a key that is none of the enumerated option names and not of the form
`func.<name>` or `category.<name>` makes `parse_and_process_kv_arg` return 1
with the `Config` unchanged, for every value; so does every key with two
dot-separated parts whose first part is neither `func` nor `category`; and
every bare token other than the four flags makes `parse_and_process_arg`
return 1 with the `Config` unchanged.  The hypothesis on `str::split` says that
the first of two parts is followed in the key by the delimiter. -/
theorem unrecognized_keys_rejected (env : Env) (c : Config) (key v : String)
    (hsplit : ∀ p0 p1, env.split key '.' = [p0, p1] → ∃ n, key = p0 ++ "." ++ n)
    (hkey : key ∉ scalar_keys)
    (hfunc : ∀ n, key ≠ "func." ++ n)
    (hcat : ∀ n, key ≠ "category." ++ n) :
    parse_and_process_kv_arg env c key v = (1, c) ∧
    (∀ k p0 p1 w, env.split k '.' = [p0, p1] → p0 ≠ "func" → p0 ≠ "category" →
      parse_and_process_kv_arg env c k w = (1, c)) ∧
    (∀ arg, arg ∉ flag_names → parse_and_process_arg c arg = (1, c)) := by
  refine ⟨?_, ?_, ?_⟩
  · by_cases h2 : (env.split key '.').length = 2
    · obtain ⟨p0, p1, hs⟩ := List.length_eq_two.mp h2
      obtain ⟨n, hn⟩ := hsplit p0 p1 hs
      have hp0 : p0 ≠ "func" := by
        intro e
        subst e
        exact hfunc n (by rw [hn]; rfl)
      have hp1 : p0 ≠ "category" := by
        intro e
        subst e
        exact hcat n (by rw [hn]; rfl)
      rw [kv_arg_two_parts env c key v p0 p1 hs]
      simp [kv_policy, hp0, hp1, map_rv]
    · rw [kv_arg_not_two_parts env c key v h2, kv_scalar_unknown env c key v hkey]
      simp [map_rv]
  · intro k p0 p1 w hs hp0 hp1
    rw [kv_arg_two_parts env c k w p0 p1 hs]
    simp [kv_policy, hp0, hp1, map_rv]
  · intro arg harg
    simp only [flag_names, List.mem_cons, List.mem_singleton, List.not_mem_nil, or_false,
      not_or] at harg
    obtain ⟨h1, h2, h3, h4⟩ := harg
    simp [parse_and_process_arg, h1, h2, h3, h4]

/-- Witness for C2 at the key `bogus.key` in the concrete environment. -/
theorem unrecognized_keys_rejected_witness :
    "bogus.key" ∉ scalar_keys ∧
    parse_and_process_kv_arg sample_env sample_config "bogus.key" "1" = (1, sample_config) :=
  ⟨by decide,
   (unrecognized_keys_rejected sample_env sample_config "bogus.key" "1"
      (sample_env_split_dot "bogus.key")
      (by decide)
      (fun n => not_prefixed 'b' 'f' _ _ n (by decide) (by decide) (by decide))
      (fun n => not_prefixed 'b' 'c' _ _ n (by decide) (by decide) (by decide))).1⟩

/-! ### The callback's results -/

/-- C3 (counterexample): the tokens `bogus` and `moveonenospc=yes` are rejected
by `process_opt`, and `option_processor` hands the host parser the result 1 for
them, which is the host's keep result and not its error result. -/
theorem rejected_option_not_reported_as_error :
    (process_opt sample_env sample_config "bogus").1 ≠ 0 ∧
    (option_processor sample_env sample_config "bogus" FUSE_OPT_KEY_OPT []).rv
      = FUSE_PROC_KEEP ∧
    (option_processor sample_env sample_config "bogus" FUSE_OPT_KEY_OPT []).rv
      ≠ FUSE_PROC_ERROR ∧
    (process_opt sample_env sample_config "moveonenospc=yes").1 ≠ 0 ∧
    (option_processor sample_env sample_config "moveonenospc=yes" FUSE_OPT_KEY_OPT []).rv
      = FUSE_PROC_KEEP := by
  decide

/-- C3 (amended): for an option token `option_processor` returns the result of
`process_opt` unchanged together with its `Config`, and leaves the argument
vector alone; that result is never the host parser's error result, and when it
is the parser's own error result 1 it is the host's keep result. -/
theorem option_processor_opt_result (env : Env) (c : Config) (arg : String)
    (out : List String) :
    option_processor env c arg FUSE_OPT_KEY_OPT out
      = ⟨(process_opt env c arg).1, (process_opt env c arg).2, out⟩ ∧
    (option_processor env c arg FUSE_OPT_KEY_OPT out).rv ≠ FUSE_PROC_ERROR ∧
    ((process_opt env c arg).1 = 1 →
      (option_processor env c arg FUSE_OPT_KEY_OPT out).rv = FUSE_PROC_KEEP) := by
  have hne : (process_opt env c arg).1 ≠ -1 := by
    unfold process_opt
    split
    · unfold parse_and_process_arg
      split_ifs <;> simp
    · unfold parse_and_process_kv_arg map_rv
      dsimp only
      split_ifs with h
      · simp
      · exact h
    · simp
  refine ⟨?_, ?_, ?_⟩
  · simp [option_processor]
  · simpa [option_processor, FUSE_PROC_ERROR] using hne
  · intro h
    simp [option_processor, FUSE_PROC_KEEP, h]

/-- Witness for C3 (amended) at the token `bogus`. -/
theorem option_processor_opt_result_witness :
    (process_opt sample_env sample_config "bogus").1 = 1 ∧
    (option_processor sample_env sample_config "bogus" FUSE_OPT_KEY_OPT []).rv
      = FUSE_PROC_KEEP :=
  ⟨by decide,
   (option_processor_opt_result sample_env sample_config "bogus" []).2.2 (by decide)⟩

/-! ### Positional arguments -/

theorem option_processor_nonopt_nonempty (env : Env) (c : Config) (a : String)
    (out : List String) (h : c.branches ≠ []) :
    option_processor env c a FUSE_OPT_KEY_NONOPT out = ⟨1, { c with destmount := a }, out⟩ := by
  have hb : c.branches.isEmpty = false := by
    cases hc : c.branches with
    | nil => exact absurd hc h
    | cons x xs => rfl
  simp [option_processor, FUSE_OPT_KEY_NONOPT, FUSE_OPT_KEY_OPT, hb, process_destmounts]

theorem option_processor_nonopt_empty (env : Env) (c : Config) (a : String)
    (out : List String) (h : c.branches = []) :
    option_processor env c a FUSE_OPT_KEY_NONOPT out
      = ⟨0, { c with branches := env.branches_set a c.branches }, out⟩ := by
  simp [option_processor, FUSE_OPT_KEY_NONOPT, FUSE_OPT_KEY_OPT, h, process_branches]

/-- C4 (counterexample): fed the positional arguments `/a:/b`, `/mnt` and
`/extra` from a `Config` without branches, `option_processor` records `/mnt`
as the mount point at the second, and at the third returns the keep result 1,
not the error result, and replaces the mount point by `/extra`. -/
theorem third_positional_not_an_error :
    (feed_nonopts sample_env ⟨0, sample_config, []⟩ ["/a:/b", "/mnt"]).config.destmount
      = "/mnt" ∧
    (feed_nonopts sample_env ⟨0, sample_config, []⟩ ["/a:/b", "/mnt", "/extra"]).rv
      = FUSE_PROC_KEEP ∧
    (feed_nonopts sample_env ⟨0, sample_config, []⟩ ["/a:/b", "/mnt", "/extra"]).rv
      ≠ FUSE_PROC_ERROR ∧
    (feed_nonopts sample_env ⟨0, sample_config, []⟩
      ["/a:/b", "/mnt", "/extra"]).config.destmount = "/extra" := by
  decide

/-- C4 (amended): once the branch list is non-empty, every further positional
argument, the second, the third and any later one, is stored as the mount
point in place of the one recorded before and is kept for the host layer with
result 1; after any non-empty run of them the mount point is the last one, and
the branch list and the other fields are as before. -/
theorem later_positionals_replace_destmount (env : Env) (c : Config) (rv0 : Int)
    (out : List String) (a : String) (rest : List String) (h : c.branches ≠ []) :
    feed_nonopts env ⟨rv0, c, out⟩ (a :: rest)
      = ⟨1, { c with destmount := (a :: rest).getLast (List.cons_ne_nil a rest) }, out⟩ := by
  induction rest generalizing c rv0 a with
  | nil =>
    simp [feed_nonopts, option_processor_nonopt_nonempty env c a out h]
  | cons b bs ih =>
    have hstep : feed_nonopts env ⟨rv0, c, out⟩ (a :: b :: bs)
        = feed_nonopts env ⟨1, { c with destmount := a }, out⟩ (b :: bs) := by
      simp [feed_nonopts, option_processor_nonopt_nonempty env c a out h]
    rw [hstep, ih { c with destmount := a } 1 b h]
    simp

/-- Witness for C4 (amended): the second and third positional arguments after
the branch list has been set. -/
theorem later_positionals_replace_destmount_witness :
    feed_nonopts sample_env
        ⟨0, { sample_config with branches := [⟨"/a", BranchMode.RW⟩] }, []⟩ ["/mnt", "/extra"]
      = ⟨1, { sample_config with branches := [⟨"/a", BranchMode.RW⟩], destmount := "/extra" },
          []⟩ :=
  later_positionals_replace_destmount sample_env
    { sample_config with branches := [⟨"/a", BranchMode.RW⟩] } 0 [] "/mnt" ["/extra"]
    (by decide)

/-- C5: from a `Config` with an empty branch list the first positional argument
is handed to `branches.set` and discarded with result 0, the mount point and
every other field staying as they were; if the branch list is then non-empty,
the second positional argument is stored as the mount point and kept with
result 1, the branch list staying as the first left it. -/
theorem positionals_assigned_by_position (env : Env) (c : Config) (a1 a2 : String)
    (out : List String) (h0 : c.branches = []) :
    option_processor env c a1 FUSE_OPT_KEY_NONOPT out
      = ⟨0, { c with branches := env.branches_set a1 c.branches }, out⟩ ∧
    (option_processor env c a1 FUSE_OPT_KEY_NONOPT out).rv = FUSE_PROC_DISCARD ∧
    (option_processor env c a1 FUSE_OPT_KEY_NONOPT out).config.destmount = c.destmount ∧
    ((option_processor env c a1 FUSE_OPT_KEY_NONOPT out).config.branches ≠ [] →
      option_processor env (option_processor env c a1 FUSE_OPT_KEY_NONOPT out).config a2
          FUSE_OPT_KEY_NONOPT (option_processor env c a1 FUSE_OPT_KEY_NONOPT out).outargs
        = ⟨FUSE_PROC_KEEP,
           { c with branches := env.branches_set a1 c.branches, destmount := a2 }, out⟩) := by
  have h1 := option_processor_nonopt_empty env c a1 out h0
  refine ⟨h1, ?_, ?_, ?_⟩
  · rw [h1]; rfl
  · rw [h1]
  · rw [h1]
    intro hne
    exact option_processor_nonopt_nonempty env _ a2 out hne

/-- Witness for C5 at the arguments `/a:/b` and `/mnt`. -/
theorem positionals_assigned_by_position_witness :
    sample_config.branches = [] ∧
    option_processor sample_env
        (option_processor sample_env sample_config "/a:/b" FUSE_OPT_KEY_NONOPT []).config
        "/mnt" FUSE_OPT_KEY_NONOPT
        (option_processor sample_env sample_config "/a:/b" FUSE_OPT_KEY_NONOPT []).outargs
      = ⟨FUSE_PROC_KEEP,
         { sample_config with
             branches := sample_env.branches_set "/a:/b" sample_config.branches,
             destmount := "/mnt" }, []⟩ :=
  ⟨rfl,
   (positionals_assigned_by_position sample_env sample_config "/a:/b" "/mnt" [] rfl).2.2.2
     (by decide)⟩

/-! ### Enumerated values -/

/-- C6: `xattr=v` succeeds exactly for `passthrough`, `noattr` and `nosys` and
sets `xattr` to 0, `ENOATTR` and `ENOSYS`; `statfs=v` succeeds exactly for
`base` and `full` and sets `statfs` to `BASE` and `FULL`; `statfs_ignore=v`
succeeds exactly for `none`, `ro` and `nc` and sets `statfs_ignore` to `NONE`,
`RO` and `NC`; every other value gives result 1 and an unchanged `Config`.
The hypothesis says that `str::split` does not cut the three keys, which
contain no dot, into two parts. -/
theorem enum_options_exact (env : Env) (c : Config) (v : String)
    (hsplit : ∀ k ∈ enum_keys, (env.split k '.').length ≠ 2) :
    (((parse_and_process_kv_arg env c "xattr" v).1 = 0 ↔
        (v = "passthrough" ∨ v = "noattr" ∨ v = "nosys")) ∧
      (v = "passthrough" →
        parse_and_process_kv_arg env c "xattr" v = (0, { c with xattr := 0 })) ∧
      (v = "noattr" →
        parse_and_process_kv_arg env c "xattr" v = (0, { c with xattr := env.ENOATTR })) ∧
      (v = "nosys" →
        parse_and_process_kv_arg env c "xattr" v = (0, { c with xattr := env.ENOSYS })) ∧
      (¬ (v = "passthrough" ∨ v = "noattr" ∨ v = "nosys") →
        parse_and_process_kv_arg env c "xattr" v = (1, c))) ∧
    (((parse_and_process_kv_arg env c "statfs" v).1 = 0 ↔ (v = "base" ∨ v = "full")) ∧
      (v = "base" →
        parse_and_process_kv_arg env c "statfs" v = (0, { c with statfs := StatFS.BASE })) ∧
      (v = "full" →
        parse_and_process_kv_arg env c "statfs" v = (0, { c with statfs := StatFS.FULL })) ∧
      (¬ (v = "base" ∨ v = "full") →
        parse_and_process_kv_arg env c "statfs" v = (1, c))) ∧
    (((parse_and_process_kv_arg env c "statfs_ignore" v).1 = 0 ↔
        (v = "none" ∨ v = "ro" ∨ v = "nc")) ∧
      (v = "none" →
        parse_and_process_kv_arg env c "statfs_ignore" v
          = (0, { c with statfs_ignore := StatFSIgnore.NONE })) ∧
      (v = "ro" →
        parse_and_process_kv_arg env c "statfs_ignore" v
          = (0, { c with statfs_ignore := StatFSIgnore.RO })) ∧
      (v = "nc" →
        parse_and_process_kv_arg env c "statfs_ignore" v
          = (0, { c with statfs_ignore := StatFSIgnore.NC })) ∧
      (¬ (v = "none" ∨ v = "ro" ∨ v = "nc") →
        parse_and_process_kv_arg env c "statfs_ignore" v = (1, c))) := by
  have hx := kv_arg_not_two_parts env c "xattr" v (hsplit "xattr" (by decide))
  have hs := kv_arg_not_two_parts env c "statfs" v (hsplit "statfs" (by decide))
  have hi := kv_arg_not_two_parts env c "statfs_ignore" v
    (hsplit "statfs_ignore" (by decide))
  refine ⟨?_, ?_, ?_⟩
  · rw [hx]
    by_cases h1 : v = "passthrough"
    · subst h1
      simp [kv_scalar, parse_and_process_errno, map_rv]
    · by_cases h2 : v = "nosys"
      · subst h2
        simp [kv_scalar, parse_and_process_errno, map_rv]
      · by_cases h3 : v = "noattr"
        · subst h3
          simp [kv_scalar, parse_and_process_errno, map_rv]
        · simp [kv_scalar, parse_and_process_errno, map_rv, h1, h2, h3]
  · rw [hs]
    by_cases h1 : v = "base"
    · subst h1
      simp [kv_scalar, parse_and_process_statfs, map_rv]
    · by_cases h2 : v = "full"
      · subst h2
        simp [kv_scalar, parse_and_process_statfs, map_rv]
      · simp [kv_scalar, parse_and_process_statfs, map_rv, h1, h2]
  · rw [hi]
    by_cases h1 : v = "none"
    · subst h1
      simp [kv_scalar, parse_and_process_statfsignore, map_rv]
    · by_cases h2 : v = "ro"
      · subst h2
        simp [kv_scalar, parse_and_process_statfsignore, map_rv]
      · by_cases h3 : v = "nc"
        · subst h3
          simp [kv_scalar, parse_and_process_statfsignore, map_rv]
        · simp [kv_scalar, parse_and_process_statfsignore, map_rv, h1, h2, h3]

/-- Witness for C6: `xattr=nosys` in the concrete environment. -/
theorem enum_options_exact_witness :
    parse_and_process_kv_arg sample_env sample_config "xattr" "nosys"
      = (0, { sample_config with xattr := 38 }) :=
  (enum_options_exact sample_env sample_config "nosys" (by decide)).1.2.2.2.1 rfl

/-! ### Policy keys -/

/-- C7: a key that splits on the dot into exactly the two parts `func` and `n`
makes `parse_and_process_kv_arg` return the result of
`Config::set_func_policy(n, value)` with -1 turned into 1, and the two parts
`category` and `n` the result of `Config::set_category_policy(n, value)` with
the same mapping; the `Config` that results is the one the setter leaves, so
the parser itself writes no field (any field the setter leaves alone is as
before), and a setter failure -1 is reported as the parse error 1. -/
theorem policy_keys_routed (env : Env) (c : Config) (key v n : String) :
    (env.split key '.' = ["func", n] →
      parse_and_process_kv_arg env c key v
        = (if (env.set_func_policy c n v).1 = -1 then 1 else (env.set_func_policy c n v).1,
           (env.set_func_policy c n v).2) ∧
      (∀ (α : Type) (field : Config → α), field (env.set_func_policy c n v).2 = field c →
        field (parse_and_process_kv_arg env c key v).2 = field c) ∧
      ((env.set_func_policy c n v).1 = -1 →
        (parse_and_process_kv_arg env c key v).1 = 1)) ∧
    (env.split key '.' = ["category", n] →
      parse_and_process_kv_arg env c key v
        = (if (env.set_category_policy c n v).1 = -1 then 1
             else (env.set_category_policy c n v).1,
           (env.set_category_policy c n v).2) ∧
      (∀ (α : Type) (field : Config → α), field (env.set_category_policy c n v).2 = field c →
        field (parse_and_process_kv_arg env c key v).2 = field c) ∧
      ((env.set_category_policy c n v).1 = -1 →
        (parse_and_process_kv_arg env c key v).1 = 1)) := by
  constructor
  · intro h
    rw [kv_arg_two_parts env c key v "func" n h]
    refine ⟨by simp [kv_policy, map_rv], ?_, ?_⟩
    · intro α field hfield
      simpa [kv_policy] using hfield
    · intro hf
      simp [kv_policy, map_rv, hf]
  · intro h
    rw [kv_arg_two_parts env c key v "category" n h]
    refine ⟨by simp [kv_policy, map_rv], ?_, ?_⟩
    · intro α field hfield
      simpa [kv_policy] using hfield
    · intro hf
      simp [kv_policy, map_rv, hf]

/-- Witness for C7: `func.create=mfs` binds the policy, and `func.create=` with
an empty policy name is reported as the parse error 1. -/
theorem policy_keys_routed_witness :
    parse_and_process_kv_arg sample_env sample_config "func.create" "mfs"
      = (0, { sample_config with func_policies := [("create", "mfs")] }) ∧
    (parse_and_process_kv_arg sample_env sample_config "func.create" "").1 = 1 :=
  ⟨((policy_keys_routed sample_env sample_config "func.create" "mfs" "create").1
      (by decide)).1,
   ((policy_keys_routed sample_env sample_config "func.create" "" "create").1
      (by decide)).2.2 (by decide)⟩

/-! ### Flags -/

/-- C8 (counterexample): the token `kernel_cache=true` is accepted with result
0 and sets `kernel_cache`, and `auto_cache=true` is accepted with result 0 and
sets `auto_cache`. -/
theorem cache_flags_accept_values :
    process_opt sample_env sample_config "kernel_cache=true"
      = (0, { sample_config with kernel_cache := true }) ∧
    process_opt sample_env sample_config "auto_cache=true"
      = (0, { sample_config with auto_cache := true }) ∧
    (process_opt sample_env sample_config "kernel_cache=true").2 ≠ sample_config := by
  decide

/-- On the pair of a flag key and a value, `parse_and_process_kv_arg` is the
boolean parser applied to the field of that name, and on a flag name
`parse_and_process_arg` sets the field. -/
theorem flag_keys_pair_level (env : Env) (c : Config) (v : String)
    (hsplit : ∀ k ∈ flag_names, (env.split k '.').length ≠ 2) :
    (parse_and_process_kv_arg env c "hard_remove" v
        = ((parse_and_process_bool v c.hard_remove).1,
           { c with hard_remove := (parse_and_process_bool v c.hard_remove).2 }) ∧
      parse_and_process_kv_arg env c "direct_io" v
        = ((parse_and_process_bool v c.direct_io).1,
           { c with direct_io := (parse_and_process_bool v c.direct_io).2 }) ∧
      parse_and_process_kv_arg env c "kernel_cache" v
        = ((parse_and_process_bool v c.kernel_cache).1,
           { c with kernel_cache := (parse_and_process_bool v c.kernel_cache).2 }) ∧
      parse_and_process_kv_arg env c "auto_cache" v
        = ((parse_and_process_bool v c.auto_cache).1,
           { c with auto_cache := (parse_and_process_bool v c.auto_cache).2 })) ∧
    (∀ k ∈ flag_names,
      ((parse_and_process_kv_arg env c k v).1 = 0 ↔ (v = "true" ∨ v = "false")) ∧
      (¬ (v = "true" ∨ v = "false") → parse_and_process_kv_arg env c k v = (1, c))) ∧
    (parse_and_process_arg c "hard_remove" = (0, { c with hard_remove := true }) ∧
      parse_and_process_arg c "direct_io" = (0, { c with direct_io := true }) ∧
      parse_and_process_arg c "kernel_cache" = (0, { c with kernel_cache := true }) ∧
      parse_and_process_arg c "auto_cache" = (0, { c with auto_cache := true })) := by
  have h1 := kv_arg_not_two_parts env c "hard_remove" v (hsplit "hard_remove" (by decide))
  have h2 := kv_arg_not_two_parts env c "direct_io" v (hsplit "direct_io" (by decide))
  have h3 := kv_arg_not_two_parts env c "kernel_cache" v (hsplit "kernel_cache" (by decide))
  have h4 := kv_arg_not_two_parts env c "auto_cache" v (hsplit "auto_cache" (by decide))
  have hb : ∀ b : Bool, (parse_and_process_bool v b).1 ≠ -1 := by
    intro b
    unfold parse_and_process_bool
    split_ifs <;> simp
  have hb0 : ∀ b : Bool, ((parse_and_process_bool v b).1 = 0 ↔ (v = "true" ∨ v = "false")) :=
    fun b => (parse_and_process_bool_iff v b).1
  have hb1 : ∀ b : Bool, ¬ (v = "true" ∨ v = "false") → parse_and_process_bool v b = (1, b) :=
    fun b => (parse_and_process_bool_iff v b).2
  refine ⟨⟨?_, ?_, ?_, ?_⟩, ?_, ?_⟩
  · rw [h1]; simp [kv_scalar, map_rv, hb]
  · rw [h2]; simp [kv_scalar, map_rv, hb]
  · rw [h3]; simp [kv_scalar, map_rv, hb]
  · rw [h4]; simp [kv_scalar, map_rv, hb]
  · intro k hk
    simp only [flag_names, List.mem_cons, List.mem_singleton, List.not_mem_nil,
      or_false] at hk
    rcases hk with e | e | e | e <;> subst e
    · rw [h2]
      refine ⟨?_, ?_⟩
      · simpa [kv_scalar, map_rv, hb] using hb0 c.direct_io
      · intro hv
        simp [kv_scalar, map_rv, hb1 _ hv]
    · rw [h1]
      refine ⟨?_, ?_⟩
      · simpa [kv_scalar, map_rv, hb] using hb0 c.hard_remove
      · intro hv
        simp [kv_scalar, map_rv, hb1 _ hv]
    · rw [h3]
      refine ⟨?_, ?_⟩
      · simpa [kv_scalar, map_rv, hb] using hb0 c.kernel_cache
      · intro hv
        simp [kv_scalar, map_rv, hb1 _ hv]
    · rw [h4]
      refine ⟨?_, ?_⟩
      · simpa [kv_scalar, map_rv, hb] using hb0 c.auto_cache
      · intro hv
        simp [kv_scalar, map_rv, hb1 _ hv]
  · simp [parse_and_process_arg]

theorem process_opt_one_part (env : Env) (c : Config) (arg a : String)
    (h : env.split arg '=' = [a]) : process_opt env c arg = parse_and_process_arg c a := by
  simp [process_opt, h]

/-- C9: for every `Config`, `process_opt` on each of the bare tokens
`direct_io`, `hard_remove`, `kernel_cache` and `auto_cache` returns 0 and
yields the `Config` with the field of that name set to true and every other
field as before; applying a flag twice is the same as applying it once, and
any two of the flags give the same `Config` in either order.  The hypothesis
says that `str::split` on `=` returns a flag token, which contains no `=`, as
its single part. -/
theorem bare_flags_set_own_field (env : Env) (c : Config)
    (hsplit : ∀ k ∈ flag_names, env.split k '=' = [k]) :
    (process_opt env c "direct_io" = (0, { c with direct_io := true }) ∧
      process_opt env c "hard_remove" = (0, { c with hard_remove := true }) ∧
      process_opt env c "kernel_cache" = (0, { c with kernel_cache := true }) ∧
      process_opt env c "auto_cache" = (0, { c with auto_cache := true })) ∧
    (∀ k ∈ flag_names,
      process_opt env (process_opt env c k).2 k = process_opt env c k) ∧
    (∀ k1 ∈ flag_names, ∀ k2 ∈ flag_names,
      process_opt env (process_opt env c k1).2 k2
        = (0, (process_opt env (process_opt env c k2).2 k1).2)) := by
  have hd : ∀ c : Config, process_opt env c "direct_io" = (0, { c with direct_io := true }) := by
    intro c
    rw [process_opt_one_part env c _ _ (hsplit "direct_io" (by decide))]
    simp [parse_and_process_arg]
  have hh : ∀ c : Config,
      process_opt env c "hard_remove" = (0, { c with hard_remove := true }) := by
    intro c
    rw [process_opt_one_part env c _ _ (hsplit "hard_remove" (by decide))]
    simp [parse_and_process_arg]
  have hk : ∀ c : Config,
      process_opt env c "kernel_cache" = (0, { c with kernel_cache := true }) := by
    intro c
    rw [process_opt_one_part env c _ _ (hsplit "kernel_cache" (by decide))]
    simp [parse_and_process_arg]
  have ha : ∀ c : Config,
      process_opt env c "auto_cache" = (0, { c with auto_cache := true }) := by
    intro c
    rw [process_opt_one_part env c _ _ (hsplit "auto_cache" (by decide))]
    simp [parse_and_process_arg]
  refine ⟨⟨hd c, hh c, hk c, ha c⟩, ?_, ?_⟩
  · intro k hk1
    simp only [flag_names, List.mem_cons, List.mem_singleton, List.not_mem_nil,
      or_false] at hk1
    rcases hk1 with e | e | e | e <;> subst e <;> simp [hd, hh, hk, ha]
  · intro k1 hk1 k2 hk2
    simp only [flag_names, List.mem_cons, List.mem_singleton, List.not_mem_nil,
      or_false] at hk1 hk2
    rcases hk1 with e | e | e | e <;> subst e <;>
      rcases hk2 with e | e | e | e <;> subst e <;> simp [hd, hh, hk, ha]

/-- Witness for C9: the token `direct_io` in the concrete environment. -/
theorem bare_flags_set_own_field_witness :
    process_opt sample_env sample_config "direct_io"
      = (0, { sample_config with direct_io := true }) :=
  (bare_flags_set_own_field sample_env sample_config (by decide)).1.1

/-! ### Numeric values -/

/-- C10: `minfreespace` is converted by `num::to_uint64_t`,
`symlinkify_timeout` by `num::to_time_t`, and `entry_timeout`,
`negative_timeout`, `attr_timeout` and `ac_attr_timeout` by `num::to_double`,
each applied to the value and the option's own field; the result is 1 exactly
when the converter returns -1 and 0 otherwise.  The hypothesis says that
`str::split` does not cut the six keys, which contain no dot, into two
parts. -/
theorem numeric_options_use_converters (env : Env) (c : Config) (v : String)
    (hsplit : ∀ k ∈ numeric_keys, (env.split k '.').length ≠ 2) :
    parse_and_process_kv_arg env c "minfreespace" v
      = (if (env.to_uint64_t v c.minfreespace).1 = -1 then 1 else 0,
         { c with minfreespace := (env.to_uint64_t v c.minfreespace).2 }) ∧
    parse_and_process_kv_arg env c "symlinkify_timeout" v
      = (if (env.to_time_t v c.symlinkify_timeout).1 = -1 then 1 else 0,
         { c with symlinkify_timeout := (env.to_time_t v c.symlinkify_timeout).2 }) ∧
    parse_and_process_kv_arg env c "entry_timeout" v
      = (if (env.to_double v c.entry_timeout).1 = -1 then 1 else 0,
         { c with entry_timeout := (env.to_double v c.entry_timeout).2 }) ∧
    parse_and_process_kv_arg env c "negative_timeout" v
      = (if (env.to_double v c.negative_timeout).1 = -1 then 1 else 0,
         { c with negative_timeout := (env.to_double v c.negative_timeout).2 }) ∧
    parse_and_process_kv_arg env c "attr_timeout" v
      = (if (env.to_double v c.attr_timeout).1 = -1 then 1 else 0,
         { c with attr_timeout := (env.to_double v c.attr_timeout).2 }) ∧
    parse_and_process_kv_arg env c "ac_attr_timeout" v
      = (if (env.to_double v c.ac_attr_timeout).1 = -1 then 1 else 0,
         { c with ac_attr_timeout := (env.to_double v c.ac_attr_timeout).2 }) := by
  have h1 := kv_arg_not_two_parts env c "minfreespace" v (hsplit "minfreespace" (by decide))
  have h2 := kv_arg_not_two_parts env c "symlinkify_timeout" v
    (hsplit "symlinkify_timeout" (by decide))
  have h3 := kv_arg_not_two_parts env c "entry_timeout" v (hsplit "entry_timeout" (by decide))
  have h4 := kv_arg_not_two_parts env c "negative_timeout" v
    (hsplit "negative_timeout" (by decide))
  have h5 := kv_arg_not_two_parts env c "attr_timeout" v (hsplit "attr_timeout" (by decide))
  have h6 := kv_arg_not_two_parts env c "ac_attr_timeout" v
    (hsplit "ac_attr_timeout" (by decide))
  refine ⟨?_, ?_, ?_, ?_, ?_, ?_⟩
  · rw [h1]
    by_cases h : (env.to_uint64_t v c.minfreespace).1 = -1 <;>
      simp [kv_scalar, parse_and_process_uint64, map_rv, h]
  · rw [h2]
    by_cases h : (env.to_time_t v c.symlinkify_timeout).1 = -1 <;>
      simp [kv_scalar, parse_and_process_time, map_rv, h]
  · rw [h3]
    by_cases h : (env.to_double v c.entry_timeout).1 = -1 <;>
      simp [kv_scalar, parse_and_process_double, map_rv, h]
  · rw [h4]
    by_cases h : (env.to_double v c.negative_timeout).1 = -1 <;>
      simp [kv_scalar, parse_and_process_double, map_rv, h]
  · rw [h5]
    by_cases h : (env.to_double v c.attr_timeout).1 = -1 <;>
      simp [kv_scalar, parse_and_process_double, map_rv, h]
  · rw [h6]
    by_cases h : (env.to_double v c.ac_attr_timeout).1 = -1 <;>
      simp [kv_scalar, parse_and_process_double, map_rv, h]

/-- Witness for C10: `minfreespace` with the value `12x`, which the concrete
converter rejects. -/
theorem numeric_options_use_converters_witness :
    parse_and_process_kv_arg sample_env sample_config "minfreespace" "12x"
      = (if (sample_env.to_uint64_t "12x" sample_config.minfreespace).1 = -1 then 1 else 0,
         { sample_config with
             minfreespace := (sample_env.to_uint64_t "12x" sample_config.minfreespace).2 }) :=
  (numeric_options_use_converters sample_env sample_config "12x" (by decide)).1

/-! ### Dispatch on the number of parts -/

theorem process_opt_two_parts (env : Env) (c : Config) (arg k v : String)
    (h : env.split arg '=' = [k, v]) :
    process_opt env c arg = parse_and_process_kv_arg env c k v := by
  simp [process_opt, h]

theorem process_opt_other_parts (env : Env) (c : Config) (arg : String)
    (h1 : (env.split arg '=').length ≠ 1) (h2 : (env.split arg '=').length ≠ 2) :
    process_opt env c arg = (1, c) := by
  unfold process_opt
  split
  · rename_i a hs
    rw [hs] at h1
    simp at h1
  · rename_i k v hs
    rw [hs] at h2
    simp at h2
  · rfl

/-- C17: `process_opt` dispatches on the number of parts into which the token
splits on `=`: with three or more parts, or with none, it returns 1 and leaves
the `Config` unchanged; with exactly one part its result is that of
`parse_and_process_arg` on the part, and with exactly two parts that of
`parse_and_process_kv_arg` on the two. -/
theorem process_opt_dispatch (env : Env) (c : Config) (arg : String) :
    (3 ≤ (env.split arg '=').length → process_opt env c arg = (1, c)) ∧
    ((env.split arg '=').length = 0 → process_opt env c arg = (1, c)) ∧
    (∀ a, env.split arg '=' = [a] → process_opt env c arg = parse_and_process_arg c a) ∧
    (∀ k v, env.split arg '=' = [k, v] →
      process_opt env c arg = parse_and_process_kv_arg env c k v) := by
  refine ⟨?_, ?_, ?_, ?_⟩
  · intro h
    exact process_opt_other_parts env c arg (by omega) (by omega)
  · intro h
    exact process_opt_other_parts env c arg (by omega) (by omega)
  · intro a h
    exact process_opt_one_part env c arg a h
  · intro k v h
    exact process_opt_two_parts env c arg k v h

/-- Witness for C17: the tokens `minfreespace=1=2` and `func.create=a=b` have
three parts and the empty token has none. -/
theorem process_opt_dispatch_witness :
    process_opt sample_env sample_config "minfreespace=1=2" = (1, sample_config) ∧
    process_opt sample_env sample_config "func.create=a=b" = (1, sample_config) ∧
    process_opt sample_env sample_config "" = (1, sample_config) :=
  ⟨(process_opt_dispatch sample_env sample_config "minfreespace=1=2").1 (by decide),
   (process_opt_dispatch sample_env sample_config "func.create=a=b").1 (by decide),
   (process_opt_dispatch sample_env sample_config "").2.1 (by decide)⟩

/-! ### Frame of an option -/

theorem map_rv_ne_zero (x : Int) : map_rv x ≠ 0 ↔ x ≠ 0 := by
  unfold map_rv
  split_ifs with h
  · subst h
    simp
  · rfl

theorem parse_and_process_bool_fail (v : String) (b : Bool)
    (h : (parse_and_process_bool v b).1 ≠ 0) : (parse_and_process_bool v b).2 = b := by
  unfold parse_and_process_bool at *
  split_ifs at * <;> simp_all

theorem parse_and_process_errno_fail (env : Env) (v : String) (e : Int)
    (h : (parse_and_process_errno env v e).1 ≠ 0) : (parse_and_process_errno env v e).2 = e := by
  unfold parse_and_process_errno at *
  split_ifs at * <;> simp_all

theorem parse_and_process_statfs_fail (v : String) (e : StatFS)
    (h : (parse_and_process_statfs v e).1 ≠ 0) : (parse_and_process_statfs v e).2 = e := by
  unfold parse_and_process_statfs at *
  split_ifs at * <;> simp_all

theorem parse_and_process_statfsignore_fail (v : String) (e : StatFSIgnore)
    (h : (parse_and_process_statfsignore v e).1 ≠ 0) :
    (parse_and_process_statfsignore v e).2 = e := by
  unfold parse_and_process_statfsignore at *
  split_ifs at * <;> simp_all

theorem parse_and_process_uint64_fail (env : Env) (v : String) (n : Nat)
    (hu : ∀ w old, (env.to_uint64_t w old).1 = -1 → (env.to_uint64_t w old).2 = old)
    (h : (parse_and_process_uint64 env v n).1 ≠ 0) :
    (parse_and_process_uint64 env v n).2 = n := by
  unfold parse_and_process_uint64 at *
  by_cases hr : (env.to_uint64_t v n).1 = -1
  · simp [hr, hu v n hr]
  · simp [hr] at h

theorem parse_and_process_double_fail (env : Env) (v : String) (d : Double)
    (hd : ∀ w old, (env.to_double w old).1 = -1 → (env.to_double w old).2 = old)
    (h : (parse_and_process_double env v d).1 ≠ 0) :
    (parse_and_process_double env v d).2 = d := by
  unfold parse_and_process_double at *
  by_cases hr : (env.to_double v d).1 = -1
  · simp [hr, hd v d hr]
  · simp [hr] at h

theorem parse_and_process_time_fail (env : Env) (v : String) (t : Int)
    (ht : ∀ w old, (env.to_time_t w old).1 = -1 → (env.to_time_t w old).2 = old)
    (h : (parse_and_process_time env v t).1 ≠ 0) :
    (parse_and_process_time env v t).2 = t := by
  unfold parse_and_process_time at *
  by_cases hr : (env.to_time_t v t).1 = -1
  · simp [hr, ht v t hr]
  · simp [hr] at h

theorem kv_scalar_fail (env : Env) (c : Config) (k v : String)
    (hu : ∀ w old, (env.to_uint64_t w old).1 = -1 → (env.to_uint64_t w old).2 = old)
    (hd : ∀ w old, (env.to_double w old).1 = -1 → (env.to_double w old).2 = old)
    (ht : ∀ w old, (env.to_time_t w old).1 = -1 → (env.to_time_t w old).2 = old)
    (h : (kv_scalar env c k v).1 ≠ 0) : (kv_scalar env c k v).2 = c := by
  by_cases hk : k ∈ scalar_keys
  · simp only [scalar_keys, List.mem_cons, List.mem_singleton, List.not_mem_nil,
      or_false] at hk
    rcases hk with e | e | e | e | e | e | e | e | e | e | e | e | e | e | e | e | e | e | e | e
      <;> subst e <;> simp [kv_scalar] at h ⊢ <;>
      first
        | rw [parse_and_process_bool_fail v _ h]
        | rw [parse_and_process_uint64_fail env v _ hu h]
        | rw [parse_and_process_time_fail env v _ ht h]
        | rw [parse_and_process_double_fail env v _ hd h]
        | rw [parse_and_process_errno_fail env v _ h]
        | rw [parse_and_process_statfs_fail v _ h]
        | rw [parse_and_process_statfsignore_fail v _ h]
  · rw [kv_scalar_unknown env c k v hk]

theorem kv_scalar_writes_own_field (env : Env) (c : Config) (k v : String)
    (hk : k ∈ scalar_keys) :
    (kv_scalar env c k v).2 = with_field_of k c (kv_scalar env c k v).2 := by
  simp only [scalar_keys, List.mem_cons, List.mem_singleton, List.not_mem_nil,
    or_false] at hk
  rcases hk with e | e | e | e | e | e | e | e | e | e | e | e | e | e | e | e | e | e | e | e
    <;> subst e <;> simp [kv_scalar, with_field_of]

theorem parse_and_process_arg_fail (c : Config) (a : String)
    (h : (parse_and_process_arg c a).1 ≠ 0) : (parse_and_process_arg c a).2 = c := by
  unfold parse_and_process_arg at *
  split_ifs at * <;> simp_all

theorem kv_policy_fail (env : Env) (c : Config) (p0 p1 v : String)
    (hf : ∀ c n w, (env.set_func_policy c n w).1 ≠ 0 → (env.set_func_policy c n w).2 = c)
    (hc : ∀ c n w, (env.set_category_policy c n w).1 ≠ 0 →
      (env.set_category_policy c n w).2 = c)
    (h : (kv_policy env c p0 p1 v).1 ≠ 0) : (kv_policy env c p0 p1 v).2 = c := by
  unfold kv_policy at *
  split_ifs at *
  · exact hf c p1 v h
  · exact hc c p1 v h
  · rfl

theorem kv_arg_fail (env : Env) (c : Config) (k v : String)
    (hu : ∀ w old, (env.to_uint64_t w old).1 = -1 → (env.to_uint64_t w old).2 = old)
    (hd : ∀ w old, (env.to_double w old).1 = -1 → (env.to_double w old).2 = old)
    (ht : ∀ w old, (env.to_time_t w old).1 = -1 → (env.to_time_t w old).2 = old)
    (hf : ∀ c n w, (env.set_func_policy c n w).1 ≠ 0 → (env.set_func_policy c n w).2 = c)
    (hc : ∀ c n w, (env.set_category_policy c n w).1 ≠ 0 →
      (env.set_category_policy c n w).2 = c)
    (h : (parse_and_process_kv_arg env c k v).1 ≠ 0) :
    (parse_and_process_kv_arg env c k v).2 = c := by
  by_cases h2 : (env.split k '.').length = 2
  · obtain ⟨p0, p1, hs⟩ := List.length_eq_two.mp h2
    rw [kv_arg_two_parts env c k v p0 p1 hs] at h ⊢
    exact kv_policy_fail env c p0 p1 v hf hc ((map_rv_ne_zero _).mp h)
  · rw [kv_arg_not_two_parts env c k v h2] at h ⊢
    exact kv_scalar_fail env c k v hu hd ht ((map_rv_ne_zero _).mp h)

/-- C16: a rejected option leaves no partial update: provided the `num::`
converters leave their target alone when they return -1 and the policy setters
leave the `Config` alone when they return non-zero, a non-zero result of
`process_opt` comes with the `Config` it was given.  And a `key=value` token
whose key is one of the scalar option names yields a `Config` that differs
from the given one at most in the field of that name, whatever the result.
The hypothesis of the second part says that `str::split` does not cut the key,
which contains no dot, into two parts. -/
theorem option_frame (env : Env) :
    ((∀ w old, (env.to_uint64_t w old).1 = -1 → (env.to_uint64_t w old).2 = old) →
     (∀ w old, (env.to_double w old).1 = -1 → (env.to_double w old).2 = old) →
     (∀ w old, (env.to_time_t w old).1 = -1 → (env.to_time_t w old).2 = old) →
     (∀ c n w, (env.set_func_policy c n w).1 ≠ 0 → (env.set_func_policy c n w).2 = c) →
     (∀ c n w, (env.set_category_policy c n w).1 ≠ 0 →
        (env.set_category_policy c n w).2 = c) →
      ∀ c arg, (process_opt env c arg).1 ≠ 0 → (process_opt env c arg).2 = c) ∧
    (∀ c arg k v, env.split arg '=' = [k, v] → k ∈ scalar_keys →
      (env.split k '.').length ≠ 2 →
      (process_opt env c arg).2 = with_field_of k c (process_opt env c arg).2) := by
  constructor
  · intro hu hd ht hf hc c arg h
    by_cases h1 : (env.split arg '=').length = 1
    · obtain ⟨a, hs⟩ := List.length_eq_one.mp h1
      rw [process_opt_one_part env c arg a hs] at h ⊢
      exact parse_and_process_arg_fail c a h
    · by_cases h2 : (env.split arg '=').length = 2
      · obtain ⟨k, v, hs⟩ := List.length_eq_two.mp h2
        rw [process_opt_two_parts env c arg k v hs] at h ⊢
        exact kv_arg_fail env c k v hu hd ht hf hc h
      · rw [process_opt_other_parts env c arg h1 h2]
  · intro c arg k v hs hk hdot
    rw [process_opt_two_parts env c arg k v hs, kv_arg_not_two_parts env c k v hdot]
    exact kv_scalar_writes_own_field env c k v hk

theorem sample_env_uint64_fail (w : String) (old : Nat)
    (h : (sample_env.to_uint64_t w old).1 = -1) : (sample_env.to_uint64_t w old).2 = old := by
  simp only [sample_env] at h ⊢
  cases hv : digits_value w <;> simp [hv] at h ⊢

theorem sample_env_double_fail (w : String) (old : Double)
    (h : (sample_env.to_double w old).1 = -1) : (sample_env.to_double w old).2 = old := by
  simp only [sample_env] at h ⊢
  cases hv : digits_value w <;> simp [hv] at h ⊢

theorem sample_env_time_fail (w : String) (old : Int)
    (h : (sample_env.to_time_t w old).1 = -1) : (sample_env.to_time_t w old).2 = old := by
  simp only [sample_env] at h ⊢
  cases hv : digits_value w <;> simp [hv] at h ⊢

theorem sample_env_func_fail (c : Config) (n w : String)
    (h : (sample_env.set_func_policy c n w).1 ≠ 0) :
    (sample_env.set_func_policy c n w).2 = c := by
  simp only [sample_env] at h ⊢
  split_ifs at h ⊢
  · rfl
  · simp at h

theorem sample_env_category_fail (c : Config) (n w : String)
    (h : (sample_env.set_category_policy c n w).1 ≠ 0) :
    (sample_env.set_category_policy c n w).2 = c := by
  simp only [sample_env] at h ⊢
  split_ifs at h ⊢
  · rfl
  · simp at h

/-- Witness for C16: `minfreespace=12x` is rejected and leaves the `Config`
as it was; `hard_remove=true` writes only `hard_remove`. -/
theorem option_frame_witness :
    (process_opt sample_env sample_config "minfreespace=12x").1 ≠ 0 ∧
    (process_opt sample_env sample_config "minfreespace=12x").2 = sample_config ∧
    (process_opt sample_env sample_config "hard_remove=true").2
      = with_field_of "hard_remove" sample_config
          (process_opt sample_env sample_config "hard_remove=true").2 :=
  ⟨by decide,
   (option_frame sample_env).1 sample_env_uint64_fail sample_env_double_fail
     sample_env_time_fail sample_env_func_fail sample_env_category_fail
     sample_config "minfreespace=12x" (by decide),
   (option_frame sample_env).2 sample_config "hard_remove=true" "hard_remove" "true"
     (by decide) (by decide) (by decide)⟩

/-! ### Derived mount options -/

theorem set_kv_option_form (args : List String) (key value : String) :
    set_kv_option args key value
      = fuse_opt_insert_arg args 1 ("-o" ++ key ++ "=" ++ value) := by
  have e : "-o" ++ (key.push '=' ++ value) = "-o" ++ key ++ "=" ++ value := by
    apply String.ext
    simp [String.data_append]
  simp [set_kv_option, set_option_arg, e]

theorem insert_at_one (a0 : String) (rest : List String) (arg : String) :
    fuse_opt_insert_arg (a0 :: rest) 1 arg = some (a0 :: arg :: rest) := by
  simp [fuse_opt_insert_arg]

theorem to_paths_eq_nil (b : Branches) : to_paths b = [] ↔ b = [] := by
  simp [to_paths]

/-- C14: when the argument vector the host parser leaves is `a0 :: rest`,
`mergerfs::options::parse` yields `a0`, then `-osubtype=mergerfs` at index 1,
then, when the branch list is non-empty, `-ofsname=` followed by
`str::remove_common_prefix_and_join` of the branch paths and `:` at index 2,
then `rest`; with an empty branch list no fsname option is inserted.  Every
option inserted by `set_kv_option` is `-o`, the key, `=` and the value. -/
theorem parse_inserts_derived_options (env : Env) (henv : HostEnv) (args : List String)
    (config : Config) (a0 : String) (rest : List String)
    (h : (henv.fuse_opt_parse args config (option_processor env)).2.1 = a0 :: rest) :
    options_parse env henv args config
      = some
          (a0 :: "-osubtype=mergerfs" ::
            (if (henv.fuse_opt_parse args config (option_processor env)).2.2.branches = []
              then rest
              else ("-ofsname=" ++ henv.remove_common_prefix_and_join
                      (to_paths
                        (henv.fuse_opt_parse args config (option_processor env)).2.2.branches)
                      ':') :: rest),
           (henv.fuse_opt_parse args config (option_processor env)).2.2) ∧
    (∀ (a : List String) (key value : String),
      set_kv_option a key value
        = fuse_opt_insert_arg a 1 ("-o" ++ key ++ "=" ++ value)) := by
  refine ⟨?_, set_kv_option_form⟩
  have hsub : ∀ b r, set_subtype (b :: r) = some (b :: "-osubtype=mergerfs" :: r) := by
    intro b r
    unfold set_subtype
    rw [set_kv_option_form, insert_at_one]
    rfl
  unfold options_parse
  simp only [h]
  by_cases hb : (henv.fuse_opt_parse args config (option_processor env)).2.2.branches = []
  · simp [set_fsname, hsub, hb, to_paths]
  · have hp : (to_paths
        (henv.fuse_opt_parse args config (option_processor env)).2.2.branches).length > 0 := by
      apply List.length_pos.mpr
      intro e
      exact hb ((to_paths_eq_nil _).mp e)
    have hfs : ∀ v : String, "-o" ++ "fsname" ++ "=" ++ v = "-ofsname=" ++ v := by
      intro v
      apply String.ext
      simp [String.data_append]
    simp [set_fsname, hp, hsub, hb, set_kv_option_form, insert_at_one, hfs]

/-- Witness for C14: the arguments `mergerfs /a/x:/a/y /mnt`. -/
theorem parse_inserts_derived_options_witness :
    (options_parse sample_env sample_host ["mergerfs", "/a/x:/a/y", "/mnt"]
        sample_config).map Prod.fst
      = some ["mergerfs", "-osubtype=mergerfs", "-ofsname=x:y", "/mnt"] := by
  have h := (parse_inserts_derived_options sample_env sample_host
    ["mergerfs", "/a/x:/a/y", "/mnt"] sample_config "mergerfs" ["/mnt"] (by decide)).1
  rw [h]
  decide

/-! ### `readlink` -/

/-- C11: when the search function does not report failure and its candidate
list starts with `b`, `local::readlink` returns exactly what `readlink_core`
returns for the base path `b`, result and memory alike; so two search outcomes
that share the first candidate give the same result, whatever the later
candidates are. -/
theorem readlink_first_candidate (fs : FsEnv) (s1 s2 : SearchFunc) (branches_ : Branches)
    (minfreespace : Nat) (fusepath : String) (buf : List Nat) (size : Nat)
    (symlinkify : Bool) (timeout : Int) (b : String) (rest1 rest2 : List String)
    (h1 : (s1 branches_ fusepath minfreespace).rv ≠ -1)
    (h1o : (s1 branches_ fusepath minfreespace).out = b :: rest1)
    (h2 : (s2 branches_ fusepath minfreespace).rv ≠ -1)
    (h2o : (s2 branches_ fusepath minfreespace).out = b :: rest2) :
    readlink fs s1 branches_ minfreespace fusepath buf size symlinkify timeout
      = readlink_core fs b fusepath buf size symlinkify timeout ∧
    readlink fs s2 branches_ minfreespace fusepath buf size symlinkify timeout
      = readlink fs s1 branches_ minfreespace fusepath buf size symlinkify timeout := by
  have e1 : readlink fs s1 branches_ minfreespace fusepath buf size symlinkify timeout
      = readlink_core fs b fusepath buf size symlinkify timeout := by
    simp [readlink, h1, h1o]
  have e2 : readlink fs s2 branches_ minfreespace fusepath buf size symlinkify timeout
      = readlink_core fs b fusepath buf size symlinkify timeout := by
    simp [readlink, h2, h2o]
  exact ⟨e1, e2.trans e1.symm⟩

/-- Witness for C11: the branches `/b`, `/c` against a search function that
reports `/b`, `/d`, `/e`. -/
theorem readlink_first_candidate_witness :
    readlink sample_fs sample_search [⟨"/b", BranchMode.RW⟩, ⟨"/c", BranchMode.RO⟩] 0 "/lnk"
        [255, 255, 255, 255, 255, 255, 255, 255] 8 false 3600
      = readlink_core sample_fs "/b" "/lnk" [255, 255, 255, 255, 255, 255, 255, 255] 8
          false 3600 ∧
    readlink sample_fs (fun _ _ _ => ⟨0, ["/b", "/d", "/e"], 0⟩)
        [⟨"/b", BranchMode.RW⟩, ⟨"/c", BranchMode.RO⟩] 0 "/lnk"
        [255, 255, 255, 255, 255, 255, 255, 255] 8 false 3600
      = readlink sample_fs sample_search [⟨"/b", BranchMode.RW⟩, ⟨"/c", BranchMode.RO⟩] 0
          "/lnk" [255, 255, 255, 255, 255, 255, 255, 255] 8 false 3600 :=
  readlink_first_candidate sample_fs sample_search (fun _ _ _ => ⟨0, ["/b", "/d", "/e"], 0⟩)
    [⟨"/b", BranchMode.RW⟩, ⟨"/c", BranchMode.RO⟩] 0 "/lnk"
    [255, 255, 255, 255, 255, 255, 255, 255] 8 false 3600 "/b" ["/c"] ["/d", "/e"]
    (by decide) (by decide) (by decide) (by decide)

/-- C12 (counterexample): with an empty candidate list and the status 0 the
call does not return the negated not-found code but goes on to `basepaths[0]`,
which is outside the vector; with an empty candidate list, the status -1 and
`errno` at `EACCES` it returns `-EACCES`, not `-ENOENT`. -/
theorem readlink_empty_candidates_not_always_enoent :
    (empty_success_search [] "/lnk" 0).out = [] ∧
    readlink sample_fs empty_success_search [] 0 "/lnk" [255, 255, 255, 255] 4 false 3600
      = none ∧
    readlink sample_fs empty_success_search [] 0 "/lnk" [255, 255, 255, 255] 4 false 3600
      ≠ some (-ENOENT, [255, 255, 255, 255]) ∧
    (denied_search [] "/lnk" 0).out = [] ∧
    readlink sample_fs denied_search [] 0 "/lnk" [255, 255, 255, 255] 4 false 3600
      = some (-EACCES, [255, 255, 255, 255]) ∧
    readlink sample_fs denied_search [] 0 "/lnk" [255, 255, 255, 255] 4 false 3600
      ≠ some (-ENOENT, [255, 255, 255, 255]) := by
  decide

/-- C12 (amended): when the search function reports failure with the status
-1, `local::readlink` returns the negated `errno` the search left, which is
the negated not-found code when that `errno` is `ENOENT`; the memory at `buf`
is unchanged and the result is the same whatever the candidate list holds, so
no candidate is looked at. -/
theorem readlink_search_failure (fs : FsEnv) (searchFunc : SearchFunc) (branches_ : Branches)
    (minfreespace : Nat) (fusepath : String) (buf : List Nat) (size : Nat)
    (symlinkify : Bool) (timeout : Int)
    (h : (searchFunc branches_ fusepath minfreespace).rv = -1) :
    readlink fs searchFunc branches_ minfreespace fusepath buf size symlinkify timeout
      = some (-(searchFunc branches_ fusepath minfreespace).errno, buf) ∧
    ((searchFunc branches_ fusepath minfreespace).errno = ENOENT →
      readlink fs searchFunc branches_ minfreespace fusepath buf size symlinkify timeout
        = some (-ENOENT, buf)) ∧
    (∀ other : List String,
      readlink fs
          (fun b p m => ⟨(searchFunc b p m).rv, other, (searchFunc b p m).errno⟩)
          branches_ minfreespace fusepath buf size symlinkify timeout
        = readlink fs searchFunc branches_ minfreespace fusepath buf size symlinkify
            timeout) := by
  have e : readlink fs searchFunc branches_ minfreespace fusepath buf size symlinkify timeout
      = some (-(searchFunc branches_ fusepath minfreespace).errno, buf) := by
    simp [readlink, h]
  refine ⟨e, ?_, ?_⟩
  · intro he
    rw [e, he]
  · intro other
    rw [e]
    simp [readlink, h]

/-- Witness for C12 (amended): the search over no branches fails with
`ENOENT`. -/
theorem readlink_search_failure_witness :
    readlink sample_fs sample_search [] 0 "/lnk" [255, 255, 255, 255] 4 false 3600
      = some (-ENOENT, [255, 255, 255, 255]) :=
  (readlink_search_failure sample_fs sample_search [] 0 "/lnk" [255, 255, 255, 255] 4
    false 3600 (by decide)).2.1 (by decide)

theorem range_map_getD (src : List Nat) (n : Nat) (hs : src.length ≤ n) :
    (List.range n).map (fun i => src.getD i 0) = src ++ List.replicate (n - src.length) 0 := by
  apply List.ext_getElem
  · simp; omega
  · intro i h1 h2
    simp at h1
    by_cases hi : i < src.length
    · simp [List.getElem_append_left, hi, List.getD_eq_getElem?_getD]
    · have hi2 : src.length ≤ i := Nat.le_of_not_lt hi
      simp [List.getElem_append_right, hi2, List.getD_eq_getElem?_getD,
        List.getElem?_eq_none hi2]

theorem strncpy_short (dest src : List Nat) (n : Nat) (hn : n ≤ dest.length)
    (hs : src.length ≤ n) :
    strncpy dest src n = some (src ++ List.replicate (n - src.length) 0 ++ dest.drop n) := by
  unfold strncpy
  rw [if_pos hn, range_map_getD src n hs]

/-- C13 (counterexample): with symlinkify enabled, a successful stat and the
predicate holding for `/b/x`, a buffer of 2 bytes receives `/b` and the result
is 0; the resolved full path `/b/x` of 4 bytes is not what the buffer
holds. -/
theorem readlink_symlinkify_small_buffer :
    (sample_fs.fs_stat (sample_fs.path_make "/b" "/x")).rv = 0 ∧
    sample_fs.can_be_symlink (sample_fs.fs_stat (sample_fs.path_make "/b" "/x")).out 3600
      = true ∧
    readlink_core sample_fs "/b" "/x" [255, 255, 255] 2 true 3600
      = some (0, [47, 98, 255]) ∧
    c_str (sample_fs.path_make "/b" "/x") = [47, 98, 47, 120] ∧
    ¬ (c_str (sample_fs.path_make "/b" "/x") <+: [47, 98, 255]) := by
  decide

/-- C13 (amended): with symlinkify enabled, a failing stat gives the negated
`errno` and leaves the memory alone; a successful stat with the predicate not
holding gives exactly the result of `readlink_core_standard` on the same path;
a successful stat with the predicate holding gives 0 with the `size` bytes
that `strncpy` writes from the resolved full path, which is the whole path
followed by NUL bytes when the path is shorter than `size`.  With symlinkify
disabled the result is that of `readlink_core_standard` and does not depend on
stat or on the predicate. -/
theorem readlink_core_symlinkify_cases (fs : FsEnv) (basepath fusepath : String)
    (buf : List Nat) (size : Nat) (timeout : Int) :
    ((fs.fs_stat (fs.path_make basepath fusepath)).rv = -1 →
      readlink_core fs basepath fusepath buf size true timeout
        = some (-(fs.fs_stat (fs.path_make basepath fusepath)).errno, buf)) ∧
    ((fs.fs_stat (fs.path_make basepath fusepath)).rv ≠ -1 →
      fs.can_be_symlink (fs.fs_stat (fs.path_make basepath fusepath)).out timeout = false →
      readlink_core fs basepath fusepath buf size true timeout
        = readlink_core_standard fs (fs.path_make basepath fusepath) buf size) ∧
    ((fs.fs_stat (fs.path_make basepath fusepath)).rv ≠ -1 →
      fs.can_be_symlink (fs.fs_stat (fs.path_make basepath fusepath)).out timeout = true →
      readlink_core fs basepath fusepath buf size true timeout
          = (strncpy buf (c_str (fs.path_make basepath fusepath)) size).map
              (fun b => ((0 : Int), b)) ∧
      (size ≤ buf.length → (c_str (fs.path_make basepath fusepath)).length < size →
        readlink_core fs basepath fusepath buf size true timeout
          = some (0, c_str (fs.path_make basepath fusepath)
                      ++ List.replicate
                          (size - (c_str (fs.path_make basepath fusepath)).length) 0
                      ++ buf.drop size))) ∧
    readlink_core fs basepath fusepath buf size false timeout
      = readlink_core_standard fs (fs.path_make basepath fusepath) buf size ∧
    (∀ fs2 : FsEnv, fs2.fs_readlink = fs.fs_readlink → fs2.path_make = fs.path_make →
      readlink_core fs2 basepath fusepath buf size false timeout
        = readlink_core fs basepath fusepath buf size false timeout) := by
  refine ⟨?_, ?_, ?_, ?_, ?_⟩
  · intro h
    simp [readlink_core, readlink_core_symlinkify, h]
  · intro h hp
    simp [readlink_core, readlink_core_symlinkify, h, hp]
  · intro h hp
    have e : readlink_core fs basepath fusepath buf size true timeout
        = (strncpy buf (c_str (fs.path_make basepath fusepath)) size).map
            (fun b => ((0 : Int), b)) := by
      simp only [readlink_core, readlink_core_symlinkify, h, hp, if_true, if_false,
        Bool.not_true]
      cases strncpy buf (c_str (fs.path_make basepath fusepath)) size <;> simp
    refine ⟨e, ?_⟩
    intro hn hlen
    rw [e, strncpy_short buf _ size hn (Nat.le_of_lt hlen)]
    rfl
  · simp [readlink_core]
  · intro fs2 hr hm
    simp [readlink_core, readlink_core_standard, hr, hm]

/-- Witness for C13 (amended): the old read-only file `/b/x` with a buffer of
6 bytes. -/
theorem readlink_core_symlinkify_cases_witness :
    readlink_core sample_fs "/b" "/x" [255, 255, 255, 255, 255, 255, 255] 6 true 3600
      = some (0, c_str (sample_fs.path_make "/b" "/x")
                  ++ List.replicate (6 - (c_str (sample_fs.path_make "/b" "/x")).length) 0
                  ++ [255, 255, 255, 255, 255, 255, 255].drop 6) :=
  ((readlink_core_symlinkify_cases sample_fs "/b" "/x" [255, 255, 255, 255, 255, 255, 255]
      6 3600).2.2.1 (by decide) (by decide)).2 (by decide) (by decide)

/-- C15: at a buffer of 4 bytes, `readlink_core` on the link `/b/lnk`, whose
content has 6 bytes, returns 0 after `fs::readlink` returned 4: the first 4
bytes hold no NUL and the NUL is written at index 4, behind the buffer; and
with symlinkify on the file `/b/x`, whose full path has 4 bytes, it returns 0
with no NUL among the first 4 bytes. -/
theorem readlink_terminator_outside_buffer :
    (sample_fs.fs_readlink (sample_fs.path_make "/b" "/lnk")
        [255, 255, 255, 255, 255, 255] 4).rv = 4 ∧
    readlink_core sample_fs "/b" "/lnk" [255, 255, 255, 255, 255, 255] 4 false 3600
      = some (0, [97, 98, 99, 100, 0, 255]) ∧
    (0 : Nat) ∉ [97, 98, 99, 100, 0, 255].take 4 ∧
    [97, 98, 99, 100, 0, 255].drop 4 ≠ [255, 255, 255, 255, 255, 255].drop 4 ∧
    readlink_core sample_fs "/b" "/x" [255, 255, 255, 255, 255, 255] 4 true 3600
      = some (0, [47, 98, 47, 120, 255, 255]) ∧
    (0 : Nat) ∉ [47, 98, 47, 120, 255, 255].take 4 := by
  decide

/-! ### Flag tokens with a value -/

/-- C8 (amended): `hard_remove`, `direct_io`, `kernel_cache` and `auto_cache`
are all accepted by `process_opt` both as a bare flag and with a boolean
value.  For each of the four keys, a token that `str::split` cuts on `=` into
the single part `key` gives result 0 and sets the field to true; a token that
it cuts into exactly the two parts `key` and `v` is handled by the boolean
parser on the field of that name: it succeeds exactly when `v` is `true` or
`false`, then setting the field to `v`, and for every other `v` it gives
result 1 and leaves the `Config` unchanged.  The hypothesis says that
`str::split` does not cut the four keys, which contain no dot, into two parts
on the dot. -/
theorem flag_tokens_accept_bool (env : Env) (c : Config) (arg v : String)
    (hsplit : ∀ k ∈ flag_names, (env.split k '.').length ≠ 2) :
    ((env.split arg '=' = ["hard_remove", v] →
        process_opt env c arg
          = ((parse_and_process_bool v c.hard_remove).1,
             { c with hard_remove := (parse_and_process_bool v c.hard_remove).2 })) ∧
      (env.split arg '=' = ["direct_io", v] →
        process_opt env c arg
          = ((parse_and_process_bool v c.direct_io).1,
             { c with direct_io := (parse_and_process_bool v c.direct_io).2 })) ∧
      (env.split arg '=' = ["kernel_cache", v] →
        process_opt env c arg
          = ((parse_and_process_bool v c.kernel_cache).1,
             { c with kernel_cache := (parse_and_process_bool v c.kernel_cache).2 })) ∧
      (env.split arg '=' = ["auto_cache", v] →
        process_opt env c arg
          = ((parse_and_process_bool v c.auto_cache).1,
             { c with auto_cache := (parse_and_process_bool v c.auto_cache).2 }))) ∧
    (∀ k ∈ flag_names, env.split arg '=' = [k, v] →
      ((process_opt env c arg).1 = 0 ↔ (v = "true" ∨ v = "false")) ∧
      (¬ (v = "true" ∨ v = "false") → process_opt env c arg = (1, c))) ∧
    ((env.split arg '=' = ["kernel_cache", v] → v = "true" →
        process_opt env c arg = (0, { c with kernel_cache := true })) ∧
      (env.split arg '=' = ["kernel_cache", v] → v = "false" →
        process_opt env c arg = (0, { c with kernel_cache := false })) ∧
      (env.split arg '=' = ["auto_cache", v] → v = "true" →
        process_opt env c arg = (0, { c with auto_cache := true })) ∧
      (env.split arg '=' = ["auto_cache", v] → v = "false" →
        process_opt env c arg = (0, { c with auto_cache := false }))) ∧
    ((env.split arg '=' = ["hard_remove"] →
        process_opt env c arg = (0, { c with hard_remove := true })) ∧
      (env.split arg '=' = ["direct_io"] →
        process_opt env c arg = (0, { c with direct_io := true })) ∧
      (env.split arg '=' = ["kernel_cache"] →
        process_opt env c arg = (0, { c with kernel_cache := true })) ∧
      (env.split arg '=' = ["auto_cache"] →
        process_opt env c arg = (0, { c with auto_cache := true }))) := by
  obtain ⟨⟨p1, p2, p3, p4⟩, pk, ⟨a1, a2, a3, a4⟩⟩ := flag_keys_pair_level env c v hsplit
  refine ⟨⟨?_, ?_, ?_, ?_⟩, ?_, ⟨?_, ?_, ?_, ?_⟩, ⟨?_, ?_, ?_, ?_⟩⟩
  · intro hs
    rw [process_opt_two_parts env c arg _ v hs, p1]
  · intro hs
    rw [process_opt_two_parts env c arg _ v hs, p2]
  · intro hs
    rw [process_opt_two_parts env c arg _ v hs, p3]
  · intro hs
    rw [process_opt_two_parts env c arg _ v hs, p4]
  · intro k hk hs
    rw [process_opt_two_parts env c arg k v hs]
    exact pk k hk
  · intro hs hv
    rw [process_opt_two_parts env c arg _ v hs, p3, hv]
    rfl
  · intro hs hv
    rw [process_opt_two_parts env c arg _ v hs, p3, hv]
    rfl
  · intro hs hv
    rw [process_opt_two_parts env c arg _ v hs, p4, hv]
    rfl
  · intro hs hv
    rw [process_opt_two_parts env c arg _ v hs, p4, hv]
    rfl
  · intro hs
    rw [process_opt_one_part env c arg _ hs, a1]
  · intro hs
    rw [process_opt_one_part env c arg _ hs, a2]
  · intro hs
    rw [process_opt_one_part env c arg _ hs, a3]
  · intro hs
    rw [process_opt_one_part env c arg _ hs, a4]

/-- Witness for C8 (amended): in the concrete environment the token
`kernel_cache=false` is cut into two parts and sets the field to false,
`auto_cache=yes` is cut into two parts and is rejected with the `Config`
unchanged, and `kernel_cache=` is cut into the single part `kernel_cache` and
sets the field to true. -/
theorem flag_tokens_accept_bool_witness :
    process_opt sample_env { sample_config with kernel_cache := true } "kernel_cache=false"
      = (0, { sample_config with kernel_cache := false }) ∧
    process_opt sample_env sample_config "auto_cache=yes" = (1, sample_config) ∧
    process_opt sample_env sample_config "kernel_cache="
      = (0, { sample_config with kernel_cache := true }) :=
  ⟨(flag_tokens_accept_bool sample_env { sample_config with kernel_cache := true }
      "kernel_cache=false" "false" (by decide)).2.2.1.2.1 (by decide) rfl,
   ((flag_tokens_accept_bool sample_env sample_config "auto_cache=yes" "yes"
      (by decide)).2.1 "auto_cache" (by decide) (by decide)).2 (by decide),
   (flag_tokens_accept_bool sample_env sample_config "kernel_cache=" ""
      (by decide)).2.2.2.2.2.1 (by decide)⟩

end mergerfs
